import Mathlib

/-
  Verification development for the ByOnco treatment-cost estimation engine
  (cost_calculator/cost_calculator_service.py, cost_calculator/default_data.py,
  cost_calculator/models.py), shallowly embedded over ℚ.

  Python floats are modelled as exact rationals; `round(x, 2)` is modelled as
  round-half-to-even at two decimal places; dict lookups that may be absent are
  modelled with `Option`; values that may be NaN or non-numeric are modelled by
  `PyVal`; the reference-data store is modelled as an oracle whose lookups can
  fail, miss, or return a record; Python exceptions are modelled with `Except`.
-/

/-- A Python value flowing into `normalize_number`: a finite float/int, a NaN,
or a non-numeric object (for which `float(value)` raises). -/
inductive PyVal where
  | rat (q : ℚ)
  | nan
  | nonNum
deriving DecidableEq, Repr

/-- default_data.normalize_number(value, default, min_val):
`num = float(value) if value is not None else default`; NaN is replaced by the
default; the result is `max(min_val, num)`; if `float` raises, the default is
returned (without the `max`). -/
def normalize_number (value : Option PyVal) (dflt min_val : ℚ) : ℚ :=
  match value with
  | none => max min_val dflt
  | some (PyVal.rat q) => max min_val q
  | some PyVal.nan => max min_val dflt
  | some PyVal.nonNum => dflt

/-- default_data.clamp_number(value, min_val, max_val) = min(max(value, min_val), max_val). -/
def clamp_number (value min_val max_val : ℚ) : ℚ :=
  min (max value min_val) max_val

/-- Round a rational to the nearest integer, ties to even — the model of
Python's built-in banker's rounding. (`Rat.floor` is used so that the
definition evaluates inside the kernel.) -/
def roundHalfEven (q : ℚ) : ℤ :=
  if q - q.floor < 1/2 then q.floor
  else if 1/2 < q - q.floor then q.floor + 1
  else if q.floor % 2 = 0 then q.floor else q.floor + 1

/-- Model of Python `round(x, 2)`. -/
def round2 (q : ℚ) : ℚ :=
  (roundHalfEven (q * 100) : ℚ) / 100

/-- Python `s or dflt` for a string `s`: the default replaces the empty string. -/
def strOr (s dflt : String) : String :=
  if s = "" then dflt else s

/-- Python `s or dflt` for an optional string: `None` and `""` are falsy. -/
def optOr (s : Option String) (dflt : String) : String :=
  match s with
  | none => dflt
  | some t => if t = "" then dflt else t

-- ---------------------------------------------------------------------------
-- Basic lemmas about the rounding model
-- ---------------------------------------------------------------------------

theorem ratFloor_eq_floor (q : ℚ) : Rat.floor q = ⌊q⌋ := by
  rw [Rat.floor_def', Rat.floor_def]

theorem roundHalfEven_ge_floor (q : ℚ) : ⌊q⌋ ≤ roundHalfEven q := by
  unfold roundHalfEven
  rw [ratFloor_eq_floor]
  split
  · exact le_refl _
  · split
    · exact le_of_lt (lt_add_one _)
    · split
      · exact le_refl _
      · exact le_of_lt (lt_add_one _)

theorem roundHalfEven_le_floor_add_one (q : ℚ) : roundHalfEven q ≤ ⌊q⌋ + 1 := by
  unfold roundHalfEven
  rw [ratFloor_eq_floor]
  split
  · exact le_of_lt (lt_add_one _)
  · split
    · exact le_refl _
    · split
      · exact le_of_lt (lt_add_one _)
      · exact le_refl _

theorem roundHalfEven_nonneg {q : ℚ} (h : 0 ≤ q) : 0 ≤ roundHalfEven q := by
  have h1 : (0 : ℤ) ≤ ⌊q⌋ := Int.floor_nonneg.mpr h
  exact le_trans h1 (roundHalfEven_ge_floor q)

theorem roundHalfEven_intCast (n : ℤ) : roundHalfEven (n : ℚ) = n := by
  unfold roundHalfEven
  rw [ratFloor_eq_floor, Int.floor_intCast]
  have h : (n : ℚ) - n = 0 := by ring
  rw [h]
  norm_num

theorem roundHalfEven_mono {q r : ℚ} (h : q ≤ r) :
    roundHalfEven q ≤ roundHalfEven r := by
  have hf : ⌊q⌋ ≤ ⌊r⌋ := Int.floor_le_floor h
  rcases lt_or_eq_of_le hf with hlt | heq
  · calc roundHalfEven q ≤ ⌊q⌋ + 1 := roundHalfEven_le_floor_add_one q
      _ ≤ ⌊r⌋ := by omega
      _ ≤ roundHalfEven r := roundHalfEven_ge_floor r
  · have hfr : q - (⌊q⌋ : ℚ) ≤ r - (⌊q⌋ : ℚ) := sub_le_sub_right h _
    unfold roundHalfEven
    rw [ratFloor_eq_floor, ratFloor_eq_floor, ← heq]
    by_cases h1 : q - (⌊q⌋ : ℚ) < 1/2
    · rw [if_pos h1]
      by_cases h2 : r - (⌊q⌋ : ℚ) < 1/2
      · rw [if_pos h2]
      · rw [if_neg h2]
        by_cases h3 : 1/2 < r - (⌊q⌋ : ℚ)
        · rw [if_pos h3]; omega
        · rw [if_neg h3]
          by_cases h4 : ⌊q⌋ % 2 = 0
          · rw [if_pos h4]
          · rw [if_neg h4]; omega
    · rw [if_neg h1]
      have hq2 : 1/2 ≤ q - (⌊q⌋ : ℚ) := le_of_not_lt h1
      have hr2 : ¬ (r - (⌊q⌋ : ℚ) < 1/2) := not_lt.mpr (le_trans hq2 hfr)
      rw [if_neg hr2]
      by_cases h3 : 1/2 < q - (⌊q⌋ : ℚ)
      · rw [if_pos h3]
        have h4 : 1/2 < r - (⌊q⌋ : ℚ) := lt_of_lt_of_le h3 hfr
        rw [if_pos h4]
      · rw [if_neg h3]
        by_cases h4 : 1/2 < r - (⌊q⌋ : ℚ)
        · rw [if_pos h4]
          by_cases h5 : ⌊q⌋ % 2 = 0
          · rw [if_pos h5]; omega
          · rw [if_neg h5]
        · rw [if_neg h4]

theorem round2_mono {q r : ℚ} (h : q ≤ r) : round2 q ≤ round2 r := by
  unfold round2
  have h1 : q * 100 ≤ r * 100 := by nlinarith
  have h2 : roundHalfEven (q * 100) ≤ roundHalfEven (r * 100) := roundHalfEven_mono h1
  have h3 : (roundHalfEven (q * 100) : ℚ) ≤ (roundHalfEven (r * 100) : ℚ) := by
    exact_mod_cast h2
  exact div_le_div_of_nonneg_right h3 (by norm_num) |>.trans_eq rfl

theorem round2_nonneg {q : ℚ} (h : 0 ≤ q) : 0 ≤ round2 q := by
  unfold round2
  have h1 : (0 : ℤ) ≤ roundHalfEven (q * 100) := roundHalfEven_nonneg (by nlinarith)
  have h2 : (0 : ℚ) ≤ (roundHalfEven (q * 100) : ℚ) := by exact_mod_cast h1
  positivity

/-- A rational that is a whole number of cents is unchanged by `round2`. -/
theorem round2_eq_self_of_cents {q : ℚ} {n : ℤ} (h : q * 100 = (n : ℚ)) :
    round2 q = q := by
  unfold round2
  rw [h, roundHalfEven_intCast]
  field_simp at h ⊢
  linarith

-- ---------------------------------------------------------------------------
-- Compiled-in default data (cost_calculator/default_data.py)
-- ---------------------------------------------------------------------------

/-- default_data: one country's `base_costs` table. -/
structure BaseCosts where
  surgery : ℚ
  chemo_per_cycle : ℚ
  radiation_per_fraction : ℚ
  transplant : ℚ
  pet_ct : ℚ
  mri_ct : ℚ
  ngsp_panel : ℚ
  opd_consult : ℚ
  room_per_day : ℚ
  icu_per_day : ℚ
deriving DecidableEq, Repr

/-- default_data: one country's `accommodation` table. -/
structure AccommodationCosts where
  budget : ℚ
  mid : ℚ
  premium : ℚ
deriving DecidableEq, Repr

/-- One entry of default_data.COUNTRY_DATA. -/
structure CountryData where
  id : String
  name : String
  currency_code : String
  currency_symbol : String
  exchange_rate_to_usd : ℚ
  data_quality : String
  base_costs : BaseCosts
  accommodation : AccommodationCosts
deriving DecidableEq, Repr

def countryIndia : CountryData :=
  { id := "india", name := "India", currency_code := "INR", currency_symbol := "₹"
    exchange_rate_to_usd := 89899376/1000000, data_quality := "high"
    base_costs :=
      { surgery := 300000, chemo_per_cycle := 50000, radiation_per_fraction := 3000
        transplant := 1500000, pet_ct := 25000, mri_ct := 8000, ngsp_panel := 100000
        opd_consult := 1500, room_per_day := 3000, icu_per_day := 8000 }
    accommodation := { budget := 1500, mid := 3500, premium := 8000 } }

def countryUsa : CountryData :=
  { id := "usa", name := "United States", currency_code := "USD", currency_symbol := "$"
    exchange_rate_to_usd := 1, data_quality := "medium"
    base_costs :=
      { surgery := 50000, chemo_per_cycle := 10000, radiation_per_fraction := 500
        transplant := 250000, pet_ct := 5000, mri_ct := 1500, ngsp_panel := 15000
        opd_consult := 300, room_per_day := 2000, icu_per_day := 5000 }
    accommodation := { budget := 80, mid := 150, premium := 300 } }

def countrySingapore : CountryData :=
  { id := "singapore", name := "Singapore", currency_code := "SGD", currency_symbol := "S$"
    exchange_rate_to_usd := 1285576/1000000, data_quality := "medium"
    base_costs :=
      { surgery := 30000, chemo_per_cycle := 6000, radiation_per_fraction := 350
        transplant := 150000, pet_ct := 3000, mri_ct := 1000, ngsp_panel := 10000
        opd_consult := 200, room_per_day := 1200, icu_per_day := 3000 }
    accommodation := { budget := 60, mid := 120, premium := 250 } }

def countryJapan : CountryData :=
  { id := "japan", name := "Japan", currency_code := "JPY", currency_symbol := "¥"
    exchange_rate_to_usd := 156087734/1000000, data_quality := "medium"
    base_costs :=
      { surgery := 4500000, chemo_per_cycle := 750000, radiation_per_fraction := 45000
        transplant := 20000000, pet_ct := 400000, mri_ct := 120000, ngsp_panel := 1500000
        opd_consult := 30000, room_per_day := 150000, icu_per_day := 400000 }
    accommodation := { budget := 8000, mid := 15000, premium := 30000 } }

def countryFrance : CountryData :=
  { id := "france", name := "France", currency_code := "EUR", currency_symbol := "€"
    exchange_rate_to_usd := 849550/1000000, data_quality := "medium"
    base_costs :=
      { surgery := 25000, chemo_per_cycle := 5000, radiation_per_fraction := 300
        transplant := 120000, pet_ct := 2500, mri_ct := 800, ngsp_panel := 8000
        opd_consult := 150, room_per_day := 1000, icu_per_day := 2500 }
    accommodation := { budget := 70, mid := 130, premium := 280 } }

def countryTurkey : CountryData :=
  { id := "turkey", name := "Turkey", currency_code := "TRY", currency_symbol := "₺"
    exchange_rate_to_usd := 42930601/1000000, data_quality := "medium"
    base_costs :=
      { surgery := 400000, chemo_per_cycle := 80000, radiation_per_fraction := 5000
        transplant := 2000000, pet_ct := 40000, mri_ct := 15000, ngsp_panel := 150000
        opd_consult := 3000, room_per_day := 20000, icu_per_day := 50000 }
    accommodation := { budget := 1500, mid := 3000, premium := 7000 } }

def countryThailand : CountryData :=
  { id := "thailand", name := "Thailand", currency_code := "THB", currency_symbol := "฿"
    exchange_rate_to_usd := 31686234/1000000, data_quality := "medium"
    base_costs :=
      { surgery := 350000, chemo_per_cycle := 70000, radiation_per_fraction := 4500
        transplant := 1800000, pet_ct := 35000, mri_ct := 12000, ngsp_panel := 140000
        opd_consult := 2500, room_per_day := 18000, icu_per_day := 45000 }
    accommodation := { budget := 1200, mid := 2500, premium := 6000 } }

def countryCanada : CountryData :=
  { id := "canada", name := "Canada", currency_code := "CAD", currency_symbol := "C$"
    exchange_rate_to_usd := 1369706/1000000, data_quality := "medium"
    base_costs :=
      { surgery := 45000, chemo_per_cycle := 9000, radiation_per_fraction := 450
        transplant := 230000, pet_ct := 4500, mri_ct := 1400, ngsp_panel := 14000
        opd_consult := 280, room_per_day := 1800, icu_per_day := 4500 }
    accommodation := { budget := 75, mid := 140, premium := 280 } }

def countryNorway : CountryData :=
  { id := "norway", name := "Norway", currency_code := "NOK", currency_symbol := "kr"
    exchange_rate_to_usd := 10044163/1000000, data_quality := "medium"
    base_costs :=
      { surgery := 400000, chemo_per_cycle := 80000, radiation_per_fraction := 4000
        transplant := 2000000, pet_ct := 40000, mri_ct := 15000, ngsp_panel := 120000
        opd_consult := 3000, room_per_day := 25000, icu_per_day := 60000 }
    accommodation := { budget := 900, mid := 1500, premium := 3000 } }

/-- default_data.COUNTRY_DATA as a keyed lookup. -/
def COUNTRY_DATA (key : String) : Option CountryData :=
  if key = "india" then some countryIndia
  else if key = "usa" then some countryUsa
  else if key = "singapore" then some countrySingapore
  else if key = "japan" then some countryJapan
  else if key = "france" then some countryFrance
  else if key = "turkey" then some countryTurkey
  else if key = "thailand" then some countryThailand
  else if key = "canada" then some countryCanada
  else if key = "norway" then some countryNorway
  else none

/-- default_data.DEFAULT_COUNTRY = COUNTRY_DATA['india']. -/
def DEFAULT_COUNTRY : CountryData := countryIndia

/-- default_data.HOSPITAL_TIER_MULTIPLIERS.get(key, dflt). -/
def HOSPITAL_TIER_MULTIPLIERS (key : String) (dflt : ℚ) : ℚ :=
  if key = "tier_1" then 13/10
  else if key = "tier_2" then 11/10
  else if key = "tier_3" then 1
  else dflt

def DEFAULT_HOSPITAL_TIER_MULTIPLIER : ℚ := 1

/-- default_data.ROOM_CATEGORY_MULTIPLIERS.get(key, 1.0). -/
def ROOM_CATEGORY_MULTIPLIERS (key : String) : ℚ :=
  if key = "general" then 8/10
  else if key = "semi_private" then 1
  else if key = "private" then 3/2
  else if key = "deluxe" then 2
  else 1

/-- default_data.REGIMEN_MULTIPLIERS.get(key, 1.0). -/
def REGIMEN_MULTIPLIERS (key : String) : ℚ :=
  if key = "standard_chemo" then 1
  else if key = "targeted" then 5/2
  else if key = "immunotherapy" then 7/2
  else if key = "oral_tki" then 2
  else if key = "combination" then 4
  else 1

/-- default_data.DRUG_ACCESS_MULTIPLIERS.get(key, 0.6): note that the
miss default is 0.6 (the generics value), not 1.0. -/
def DRUG_ACCESS_MULTIPLIERS (key : String) : ℚ :=
  if key = "originator" then 1
  else if key = "generics" then 6/10
  else if key = "biosimilars" then 7/10
  else 6/10

/-- default_data.RADIATION_TECHNIQUE_MULTIPLIERS.get(key, 1.0). -/
def RADIATION_TECHNIQUE_MULTIPLIERS (key : String) : ℚ :=
  if key = "2d" then 1/2
  else if key = "3d_crt" then 1
  else if key = "imrt" then 3/2
  else if key = "vmat" then 9/5
  else if key = "sbrt" then 5/2
  else if key = "proton" then 5
  else 1

/-- default_data.TRANSPLANT_TYPE_MULTIPLIERS.get(key, 1.0). -/
def TRANSPLANT_TYPE_MULTIPLIERS (key : String) : ℚ :=
  if key = "autologous" then 1
  else if key = "allogeneic" then 9/5
  else 1

/-- default_data.TRAVEL_TYPE_MULTIPLIERS.get(key, 1.0). -/
def TRAVEL_TYPE_MULTIPLIERS (key : String) : ℚ :=
  if key = "economy" then 1
  else if key = "premium" then 9/5
  else if key = "business" then 7/2
  else 1

def BASE_FLIGHT_COST_USD : ℚ := 500

/-- default_data.LOCAL_TRANSPORT_COSTS.get(key, 30). -/
def LOCAL_TRANSPORT_COSTS (key : String) : ℚ :=
  if key = "daily_cab" then 30
  else if key = "public" then 10
  else if key = "hospital_shuttle" then 5
  else 30

def FOOD_COST_PER_DAY_USD : ℚ := 50

/-- default_data.DEFAULT_INSURANCE_COVERAGE percentages. -/
def DEFAULT_INSURANCE_COVERAGE_inpatient : ℚ := 80
def DEFAULT_INSURANCE_COVERAGE_outpatient : ℚ := 50
def DEFAULT_INSURANCE_COVERAGE_drug : ℚ := 70

/-- default_data.get_country_data: empty/None key or unknown key falls back to
the india entry. -/
def get_country_data (country_id : String) : CountryData :=
  if country_id = "" then countryIndia
  else (COUNTRY_DATA country_id).getD DEFAULT_COUNTRY

/-- default_data.get_base_costs. -/
def get_base_costs (country_id : String) : BaseCosts :=
  if country_id = "" then countryIndia.base_costs
  else ((COUNTRY_DATA country_id).getD countryIndia).base_costs

/-- default_data.get_accommodation_costs. -/
def get_accommodation_costs (country_id : String) : AccommodationCosts :=
  if country_id = "" then countryIndia.accommodation
  else ((COUNTRY_DATA country_id).getD countryIndia).accommodation

-- ---------------------------------------------------------------------------
-- The reference-data store (the `db` collaborator) and its documents
-- ---------------------------------------------------------------------------

/-- Outcome of one `find_one` store lookup: the I/O raised (caught and logged by
the service), the record is missing, or a record was returned. -/
inductive DbResult (α : Type) where
  | ioError
  | missing
  | found (doc : α)

/-- Both `ioError` and `missing` leave the service's local variable `None`. -/
def DbResult.toOption {α : Type} : DbResult α → Option α
  | DbResult.found d => some d
  | _ => none

/-- A country document/dict as the service manipulates it: every key may be
absent. Also the shape of the resolved `country` dict inside the service. -/
structure CountryDoc where
  name : Option String := none
  currency : Option String := none
  currency_code : Option String := none
  currency_symbol : Option String := none
  fx_rate : Option PyVal := none
  exchange_rate_to_usd : Option PyVal := none
  data_quality : Option String := none
deriving DecidableEq, Repr

/-- A base-costs document from the store: every key may be absent or non-numeric. -/
structure BaseCostsDoc where
  surgery : Option PyVal := none
  chemo_per_cycle : Option PyVal := none
  radiation_per_fraction : Option PyVal := none
  transplant : Option PyVal := none
  pet_ct : Option PyVal := none
  mri_ct : Option PyVal := none
  ngsp_panel : Option PyVal := none
  opd_consult : Option PyVal := none
  room_per_day : Option PyVal := none
  icu_per_day : Option PyVal := none
deriving DecidableEq, Repr

/-- An accommodation-costs document from the store. -/
structure AccommodationDoc where
  budget : Option PyVal := none
  mid : Option PyVal := none
  premium : Option PyVal := none
deriving DecidableEq, Repr

/-- A hospital-tier document from the store. -/
structure HospitalTierDoc where
  multiplier : Option PyVal := none
  name : Option String := none
deriving DecidableEq, Repr

/-- An insurer document from the store. -/
structure InsurerDoc where
  name : Option String := none
  inpatient_coverage : Option PyVal := none
  outpatient_coverage : Option PyVal := none
  drug_coverage : Option PyVal := none
deriving DecidableEq, Repr

/-- The store, as keyed read-only lookups. `self.db is None` is the state where
every lookup yields `missing`. -/
structure Db where
  countries : String → DbResult CountryDoc
  base_costs : String → DbResult BaseCostsDoc
  hospital_tiers : String → DbResult HospitalTierDoc
  accommodation_costs : String → DbResult AccommodationDoc
  insurers : String → DbResult InsurerDoc

-- ---------------------------------------------------------------------------
-- Request / breakdown / response models (cost_calculator/models.py)
-- ---------------------------------------------------------------------------

/-- models.CostCalculationRequest. Numeric fields are `PyVal` so that NaN and
negative inputs are representable; optional strings are `Option String`. -/
structure CostCalculationRequest where
  country : String
  city : Option String := none
  hospital_tier : String
  accreditation : List String := []
  age_group : String
  cancer_category : String
  cancer_type : String
  stage : String
  intent : String
  include_surgery : Bool := false
  surgery_type : Option String := none
  surgery_days : PyVal := PyVal.rat 3
  icu_days : PyVal := PyVal.rat 0
  room_category : String := "semi_private"
  include_chemo : Bool := false
  regimen_type : Option String := none
  chemo_cycles : PyVal := PyVal.rat 6
  drug_access : String := "generics"
  include_radiation : Bool := false
  radiation_technique : Option String := none
  radiation_fractions : PyVal := PyVal.rat 25
  concurrent_chemo : Bool := false
  include_transplant : Bool := false
  transplant_type : Option String := none
  transplant_days : PyVal := PyVal.rat 30
  pet_ct_count : PyVal := PyVal.rat 2
  mri_ct_count : PyVal := PyVal.rat 4
  include_ngs : Bool := false
  opd_consults : PyVal := PyVal.rat 10
  follow_up_months : PyVal := PyVal.rat 12
  has_insurance : Bool := false
  insurer : Option String := none
  policy_type : String := "domestic"
  custom_coverage : Bool := false
  inpatient_coverage : PyVal := PyVal.rat 80
  outpatient_coverage : PyVal := PyVal.rat 50
  drug_coverage : PyVal := PyVal.rat 70
  deductible : PyVal := PyVal.rat 0
  copay_percent : PyVal := PyVal.rat 20
  companions : PyVal := PyVal.rat 1
  stay_duration : PyVal := PyVal.rat 60
  accommodation_level : String := "mid"
  travel_type : String := "economy"
  return_trips : PyVal := PyVal.rat 1
  local_transport : String := "daily_cab"
  complication_buffer : PyVal := PyVal.rat 15
  currency : String := "USD"
deriving DecidableEq, Repr

/-- models.CostBreakdown: every entry defaults to 0. -/
structure CostBreakdown where
  surgery : ℚ := 0
  chemotherapy : ℚ := 0
  radiation : ℚ := 0
  transplant : ℚ := 0
  diagnostics : ℚ := 0
  accommodation : ℚ := 0
  travel : ℚ := 0
  local_transport : ℚ := 0
  food : ℚ := 0
deriving DecidableEq, Repr

/-- One entry of the running `assumptions` list. Each constructor models one
f-string appended by the service, carrying the interpolated values. -/
inductive Assumption where
  | currencyBase (code : String)
  | exchangeRateInfo (rate : ℚ) (code : String)
  | convertedToUsd (rate : ℚ)
  | usingDefaultCountry (country_id : String)
  | usingDefaultBaseCosts (country_id : String)
  | surgeryInfo (surgery_type : String) (days icu : ℚ) (room : String)
  | chemoInfo (cycles : ℚ) (regimen drug : String)
  | concurrentChemoInfo
  | radiationInfo (fractions : ℚ) (technique : String)
  | transplantInfo (transplant_type : String) (days : ℚ)
  | ngsIncluded
  | diagnosticsInfo (pet mri opd : ℚ)
  | tourismInfo (companions stay : ℚ) (accommodation travel : String)
  | customCoverageInfo (inpatient outpatient drug : ℚ)
  | insurerCoverageInfo (name : String) (inpatient outpatient drug : ℚ)
  | defaultCoverageInfo (inpatient outpatient drug : ℚ)
  | deductibleInfo (deductible : ℚ) (currency : String) (copay : ℚ)
  | noInsurance
  | hospitalTierInfo (name : String) (multiplier : ℚ)
  | complicationBufferInfo (pct : ℚ)
  | confidenceInfo (level : String)
  | countryBaselineInfo (name : String)
  | dataVintageInfo
  | dataQualityWarning
  | noModalitiesWarning
  | cancerTypeWarning
  | stageWarning
  | calcErrorWarning
  | verifyInputsInfo
  | errorMsgInfo
  | criticalErrorWarning
  | contactSupportInfo
deriving DecidableEq, Repr

/-- The response record the service builds: exactly the keyword arguments it
passes to the `CostCalculationResponse(...)` constructor (service lines
421-439). The pydantic model declared in models.py additionally REQUIRES a
`currency` field that the service never passes, so `currency` is optional here
and stays `none`; see `CostCalculationResponseModel` below. -/
structure CostCalculationResponse where
  total_cost_local : ℚ
  total_cost_usd : ℚ
  total_cost_inr : ℚ
  clinical_cost : ℚ
  clinical_cost_usd : ℚ
  non_clinical_cost : ℚ
  non_clinical_cost_usd : ℚ
  insurance_pays : ℚ
  insurance_pays_usd : ℚ
  patient_out_of_pocket : ℚ
  patient_out_of_pocket_usd : ℚ
  breakdown : CostBreakdown
  breakdown_usd : CostBreakdown
  currency_code : String
  currency_symbol : String
  exchange_rate_to_usd : ℚ
  assumptions : List Assumption
  currency : Option String := none
deriving DecidableEq, Repr

/-- models.CostCalculationResponse AS DECLARED in models.py lines 144-153: it
has none of the USD fields the service computes and it requires `currency`. -/
structure CostCalculationResponseModel where
  total_cost_local : ℚ
  total_cost_inr : ℚ
  clinical_cost : ℚ
  non_clinical_cost : ℚ
  insurance_pays : ℚ
  patient_out_of_pocket : ℚ
  breakdown : CostBreakdown
  currency : String
  assumptions : List Assumption
deriving DecidableEq, Repr

/-- Pydantic validation of the constructor call: extra keyword arguments are
ignored, but a missing required field (`currency`) raises ValidationError. -/
def pydanticValidateResponse (d : CostCalculationResponse) :
    Except Unit CostCalculationResponseModel :=
  match d.currency with
  | some c =>
      Except.ok
        { total_cost_local := d.total_cost_local
          total_cost_inr := d.total_cost_inr
          clinical_cost := d.clinical_cost
          non_clinical_cost := d.non_clinical_cost
          insurance_pays := d.insurance_pays
          patient_out_of_pocket := d.patient_out_of_pocket
          breakdown := d.breakdown
          currency := c
          assumptions := d.assumptions }
  | none => Except.error ()

-- ---------------------------------------------------------------------------
-- The calculation pipeline (cost_calculator_service.calculate_treatment_cost)
-- ---------------------------------------------------------------------------

/-- Line 33: `country_id = request.country or 'india'`. -/
def countryIdOf (req : CostCalculationRequest) : String :=
  strOr req.country "india"

/-- Line 34: `hospital_tier_id = request.hospital_tier or 'tier_3'`. -/
def hospitalTierIdOf (req : CostCalculationRequest) : String :=
  strOr req.hospital_tier "tier_3"

/-- The normalized numeric inputs of section 1 (lines 37-50). -/
structure NormalizedInputs where
  surgery_days : ℚ
  icu_days : ℚ
  chemo_cycles : ℚ
  radiation_fractions : ℚ
  transplant_days : ℚ
  pet_ct_count : ℚ
  mri_ct_count : ℚ
  opd_consults : ℚ
  companions : ℚ
  stay_duration : ℚ
  return_trips : ℚ
  complication_buffer : ℚ
  deductible : ℚ
  copay_percent : ℚ
deriving DecidableEq, Repr

/-- Lines 37-50: normalize then clamp every numeric input. -/
def normalizeInputs (req : CostCalculationRequest) : NormalizedInputs :=
  { surgery_days := clamp_number (normalize_number (some req.surgery_days) 3 0) 1 30
    icu_days := clamp_number (normalize_number (some req.icu_days) 0 0) 0 15
    chemo_cycles := clamp_number (normalize_number (some req.chemo_cycles) 6 0) 1 24
    radiation_fractions := clamp_number (normalize_number (some req.radiation_fractions) 25 0) 1 40
    transplant_days := clamp_number (normalize_number (some req.transplant_days) 30 0) 14 60
    pet_ct_count := clamp_number (normalize_number (some req.pet_ct_count) 2 0) 0 10
    mri_ct_count := clamp_number (normalize_number (some req.mri_ct_count) 4 0) 0 20
    opd_consults := clamp_number (normalize_number (some req.opd_consults) 10 0) 1 30
    companions := clamp_number (normalize_number (some req.companions) 1 0) 0 5
    stay_duration := clamp_number (normalize_number (some req.stay_duration) 60 0) 7 180
    return_trips := clamp_number (normalize_number (some req.return_trips) 1 0) 1 5
    complication_buffer := clamp_number (normalize_number (some req.complication_buffer) 15 0) 0 30
    deductible := normalize_number (some req.deductible) 0 0
    copay_percent := clamp_number (normalize_number (some req.copay_percent) 20 0) 0 50 }

/-- Convert a compiled-in COUNTRY_DATA entry to the dict shape the service
reads. The compiled dicts carry `exchange_rate_to_usd` but have NO `fx_rate`
and NO `currency` key. -/
def countryDataToDict (c : CountryData) : CountryDoc :=
  { name := some c.name
    currency := none
    currency_code := some c.currency_code
    currency_symbol := some c.currency_symbol
    fx_rate := none
    exchange_rate_to_usd := some (PyVal.rat c.exchange_rate_to_usd)
    data_quality := some c.data_quality }

/-- Lines 81-86: backfill `currency_code`, `currency_symbol`,
`exchange_rate_to_usd` on a store-provided country dict. -/
def countryDocBackfill (d : CountryDoc) : CountryDoc :=
  { d with
    currency_code := some (d.currency_code.getD (d.currency.getD "USD"))
    currency_symbol := some (d.currency_symbol.getD "$")
    exchange_rate_to_usd := some (d.exchange_rate_to_usd.getD (d.fx_rate.getD (PyVal.rat 1))) }

/-- Lines 56-86: the resolved country dict. -/
def resolvedCountry (db : Db) (req : CostCalculationRequest) : CountryDoc :=
  match (db.countries (countryIdOf req)).toOption with
  | some d => countryDocBackfill d
  | none => countryDataToDict (get_country_data (countryIdOf req))

/-- True when the store did not supply the country record (lines 63-78). -/
def countryDefaulted (db : Db) (req : CostCalculationRequest) : Bool :=
  ((db.countries (countryIdOf req)).toOption).isNone

/-- Convert compiled base costs to the dict shape. -/
def baseCostsToDoc (b : BaseCosts) : BaseCostsDoc :=
  { surgery := some (PyVal.rat b.surgery)
    chemo_per_cycle := some (PyVal.rat b.chemo_per_cycle)
    radiation_per_fraction := some (PyVal.rat b.radiation_per_fraction)
    transplant := some (PyVal.rat b.transplant)
    pet_ct := some (PyVal.rat b.pet_ct)
    mri_ct := some (PyVal.rat b.mri_ct)
    ngsp_panel := some (PyVal.rat b.ngsp_panel)
    opd_consult := some (PyVal.rat b.opd_consult)
    room_per_day := some (PyVal.rat b.room_per_day)
    icu_per_day := some (PyVal.rat b.icu_per_day) }

/-- Lines 88-99: base costs, store first, compiled defaults second. -/
def resolvedBaseCosts (db : Db) (req : CostCalculationRequest) : BaseCostsDoc :=
  match (db.base_costs (countryIdOf req)).toOption with
  | some d => d
  | none => baseCostsToDoc (get_base_costs (countryIdOf req))

/-- True when the store did not supply the base-cost record (lines 96-99). -/
def baseCostsDefaulted (db : Db) (req : CostCalculationRequest) : Bool :=
  ((db.base_costs (countryIdOf req)).toOption).isNone

/-- Lines 101-111: the tier multiplier and name as fetched (before the
line 113 substitution). A missing or failing lookup leaves the defaults. -/
def tierFetched (db : Db) (req : CostCalculationRequest) : ℚ × String :=
  match (db.hospital_tiers (hospitalTierIdOf req)).toOption with
  | some d =>
      (normalize_number d.multiplier DEFAULT_HOSPITAL_TIER_MULTIPLIER 0,
       d.name.getD "Tier 3 - Regional Private Hospital")
  | none => (DEFAULT_HOSPITAL_TIER_MULTIPLIER, "Tier 3 - Regional Private Hospital")

/-- Lines 113-114: a fetched multiplier equal to the built-in default 1.0 is
discarded in favour of the compiled-in table for the tier id. -/
def tierMultiplier (db : Db) (req : CostCalculationRequest) : ℚ :=
  if (tierFetched db req).1 = DEFAULT_HOSPITAL_TIER_MULTIPLIER then
    HOSPITAL_TIER_MULTIPLIERS (hospitalTierIdOf req) DEFAULT_HOSPITAL_TIER_MULTIPLIER
  else (tierFetched db req).1

def hospitalTierNameOf (db : Db) (req : CostCalculationRequest) : String :=
  (tierFetched db req).2

/-- Lines 125-140: surgery cost (0 when the modality is off). -/
def surgeryRawCost (db : Db) (req : CostCalculationRequest) : ℚ :=
  if req.include_surgery then
    let bc := resolvedBaseCosts db req
    let n := normalizeInputs req
    let surgery_cost := normalize_number bc.surgery 0 0 * tierMultiplier db req
    let room_cost := normalize_number bc.room_per_day 0 0 * n.surgery_days *
      ROOM_CATEGORY_MULTIPLIERS (strOr req.room_category "semi_private")
    let icu_cost := normalize_number bc.icu_per_day 0 0 * n.icu_days
    surgery_cost + room_cost + icu_cost
  else 0

/-- Lines 143-163: chemotherapy cost with regimen/drug-access multipliers and
the 10% day-care add-on. -/
def chemoRawCost (db : Db) (req : CostCalculationRequest) : ℚ :=
  if req.include_chemo then
    let bc := resolvedBaseCosts db req
    let n := normalizeInputs req
    let chemo_cost := normalize_number bc.chemo_per_cycle 0 0 *
      REGIMEN_MULTIPLIERS (optOr req.regimen_type "standard_chemo") *
      DRUG_ACCESS_MULTIPLIERS (strOr req.drug_access "generics")
    let daycare_cost := chemo_cost * (1/10)
    (chemo_cost + daycare_cost) * n.chemo_cycles * tierMultiplier db req
  else 0

/-- Lines 166-184: radiation cost, plus concurrent chemo when requested. -/
def radiationRawCost (db : Db) (req : CostCalculationRequest) : ℚ :=
  if req.include_radiation then
    let bc := resolvedBaseCosts db req
    let n := normalizeInputs req
    let radiation_cost := normalize_number bc.radiation_per_fraction 0 0 *
      RADIATION_TECHNIQUE_MULTIPLIERS (optOr req.radiation_technique "3d_crt")
    radiation_cost * n.radiation_fractions * tierMultiplier db req +
      (if req.concurrent_chemo then
        normalize_number bc.chemo_per_cycle 0 0 * (3/10) * tierMultiplier db req
      else 0)
  else 0

/-- Lines 187-202: transplant cost plus hospitalization. -/
def transplantRawCost (db : Db) (req : CostCalculationRequest) : ℚ :=
  if req.include_transplant then
    let bc := resolvedBaseCosts db req
    let n := normalizeInputs req
    normalize_number bc.transplant 0 0 * tierMultiplier db req *
      TRANSPLANT_TYPE_MULTIPLIERS (optOr req.transplant_type "autologous") +
      normalize_number bc.room_per_day 0 0 * n.transplant_days
  else 0

/-- Lines 205-214: diagnostics, always computed. -/
def diagnosticsRawCost (db : Db) (req : CostCalculationRequest) : ℚ :=
  let bc := resolvedBaseCosts db req
  let n := normalizeInputs req
  normalize_number bc.pet_ct 0 0 * n.pet_ct_count +
    normalize_number bc.mri_ct 0 0 * n.mri_ct_count +
    (if req.include_ngs then normalize_number bc.ngsp_panel 0 0 else 0) +
    normalize_number bc.opd_consult 0 0 * n.opd_consults

/-- Line 122 + accumulation: clinical cost is the sum of the UNROUNDED
modality costs. -/
def clinicalCostRaw (db : Db) (req : CostCalculationRequest) : ℚ :=
  surgeryRawCost db req + chemoRawCost db req + radiationRawCost db req +
    transplantRawCost db req + diagnosticsRawCost db req

/-- Lines 225-233: accommodation costs, store first, compiled defaults second
(no assumption is recorded for this fallback). -/
def resolvedAccommodation (db : Db) (req : CostCalculationRequest) : AccommodationDoc :=
  match (db.accommodation_costs (countryIdOf req)).toOption with
  | some d => d
  | none =>
      let a := get_accommodation_costs (countryIdOf req)
      { budget := some (PyVal.rat a.budget)
        mid := some (PyVal.rat a.mid)
        premium := some (PyVal.rat a.premium) }

/-- `accommodation_costs_data.get(accommodation_level, 0)` with a string key. -/
def accommodationDocGet (a : AccommodationDoc) (key : String) : Option PyVal :=
  if key = "budget" then a.budget
  else if key = "mid" then a.mid
  else if key = "premium" then a.premium
  else none

/-- Lines 235-239. -/
def accommodationRawCost (db : Db) (req : CostCalculationRequest) : ℚ :=
  let n := normalizeInputs req
  normalize_number
      (accommodationDocGet (resolvedAccommodation db req)
        (strOr req.accommodation_level "mid")) 0 0 *
    n.stay_duration * (n.companions + 1)

/-- `normalize_number(country.get('fx_rate', 1.0))` (lines 244, 252, 258): the
factor that multiplies the USD-denominated travel/transport/food constants.
The compiled-in country dicts carry no `fx_rate` key, so the dict-get default
1.0 applies whenever the country came from the compiled defaults. -/
def fxRateFactor (db : Db) (req : CostCalculationRequest) : ℚ :=
  normalize_number (some ((resolvedCountry db req).fx_rate.getD (PyVal.rat 1))) 0 0

/-- Lines 241-247. -/
def travelRawCost (db : Db) (req : CostCalculationRequest) : ℚ :=
  let n := normalizeInputs req
  BASE_FLIGHT_COST_USD * fxRateFactor db req *
    TRAVEL_TYPE_MULTIPLIERS (strOr req.travel_type "economy") *
    n.return_trips * (n.companions + 1)

/-- Lines 249-255. -/
def localTransportRawCost (db : Db) (req : CostCalculationRequest) : ℚ :=
  let n := normalizeInputs req
  LOCAL_TRANSPORT_COSTS (strOr req.local_transport "daily_cab") *
    fxRateFactor db req * n.stay_duration

/-- Lines 257-261. -/
def foodRawCost (db : Db) (req : CostCalculationRequest) : ℚ :=
  let n := normalizeInputs req
  FOOD_COST_PER_DAY_USD * fxRateFactor db req * n.stay_duration * (n.companions + 1)

def nonClinicalCostRaw (db : Db) (req : CostCalculationRequest) : ℚ :=
  accommodationRawCost db req + travelRawCost db req +
    localTransportRawCost db req + foodRawCost db req

/-- Line 268. -/
def bufferAmount (db : Db) (req : CostCalculationRequest) : ℚ :=
  clinicalCostRaw db req * ((normalizeInputs req).complication_buffer / 100)

/-- Line 273. -/
def totalBeforeInsurance (db : Db) (req : CostCalculationRequest) : ℚ :=
  clinicalCostRaw db req + nonClinicalCostRaw db req + bufferAmount db req

/-- The `breakdown` object: each entry rounded at assignment. -/
def breakdownLocal (db : Db) (req : CostCalculationRequest) : CostBreakdown :=
  { surgery := round2 (surgeryRawCost db req)
    chemotherapy := round2 (chemoRawCost db req)
    radiation := round2 (radiationRawCost db req)
    transplant := round2 (transplantRawCost db req)
    diagnostics := round2 (diagnosticsRawCost db req)
    accommodation := round2 (accommodationRawCost db req)
    travel := round2 (travelRawCost db req)
    local_transport := round2 (localTransportRawCost db req)
    food := round2 (foodRawCost db req) }

/-- Lines 280-285: the insurer record, looked up only when `request.insurer`
is truthy; a failing lookup leaves it `None`. -/
def insurerResolved (db : Db) (req : CostCalculationRequest) : Option InsurerDoc :=
  match req.insurer with
  | none => none
  | some s => if s = "" then none else (db.insurers s).toOption

/-- Lines 288-305: coverage fractions, in priority order custom → insurer →
compiled default. -/
def coverageTriple (db : Db) (req : CostCalculationRequest) : ℚ × ℚ × ℚ :=
  if req.custom_coverage then
    (clamp_number (normalize_number (some req.inpatient_coverage) 80 0) 0 100 / 100,
     clamp_number (normalize_number (some req.outpatient_coverage) 50 0) 0 100 / 100,
     clamp_number (normalize_number (some req.drug_coverage) 70 0) 0 100 / 100)
  else
    match insurerResolved db req with
    | some ins =>
        (normalize_number (some (ins.inpatient_coverage.getD (PyVal.rat 80))) 80 0 / 100,
         normalize_number (some (ins.outpatient_coverage.getD (PyVal.rat 50))) 50 0 / 100,
         normalize_number (some (ins.drug_coverage.getD (PyVal.rat 70))) 70 0 / 100)
    | none =>
        (DEFAULT_INSURANCE_COVERAGE_inpatient / 100,
         DEFAULT_INSURANCE_COVERAGE_outpatient / 100,
         DEFAULT_INSURANCE_COVERAGE_drug / 100)

/-- Lines 278-329: the insurer-paid amount (0 without insurance). Eligible
pools are read from the ROUNDED breakdown entries. -/
def insurancePaysRaw (db : Db) (req : CostCalculationRequest) : ℚ :=
  if req.has_insurance then
    let c := coverageTriple db req
    let bd := breakdownLocal db req
    let n := normalizeInputs req
    let total_covered := (bd.surgery + bd.transplant) * c.1 +
      (bd.radiation + bd.diagnostics) * c.2.1 + bd.chemotherapy * c.2.2
    max 0 (total_covered - n.deductible) * (1 - n.copay_percent / 100)
  else 0

/-- Line 334. -/
def patientOutOfPocketRaw (db : Db) (req : CostCalculationRequest) : ℚ :=
  max 0 (totalBeforeInsurance db req - insurancePaysRaw db req)

/-- Lines 340-343. -/
def exchangeRate (db : Db) (req : CostCalculationRequest) : ℚ :=
  normalize_number
    (some ((resolvedCountry db req).exchange_rate_to_usd.getD (PyVal.rat 1))) 1 0

/-- Line 344. -/
def currencyCodeOf (db : Db) (req : CostCalculationRequest) : String :=
  (resolvedCountry db req).currency_code.getD
    ((resolvedCountry db req).currency.getD "USD")

/-- Line 345. -/
def currencySymbolOf (db : Db) (req : CostCalculationRequest) : String :=
  (resolvedCountry db req).currency_symbol.getD "$"

/-- Line 367: the hardcoded legacy USD→INR reference rate. -/
def USD_TO_INR_RATE : ℚ := 89899376/1000000

/-- True when the default compiled-in coverage percentages were used
(insured, no custom coverage, no insurer record resolved; line 298-305). -/
def usedDefaultCoverage (db : Db) (req : CostCalculationRequest) : Bool :=
  req.has_insurance && !req.custom_coverage && (insurerResolved db req).isNone

/-- The confidence level at the moment it is written into the assumptions list
(line 394). Only the downgrades of lines 78, 99 and 305 have happened by then;
the later downgrades (lines 400-416) mutate a variable that is never read
again. -/
def confidenceAt394 (db : Db) (req : CostCalculationRequest) : String :=
  let c1 := if countryDefaulted db req then "Medium" else "High"
  let c2 := if baseCostsDefaulted db req then (if c1 = "High" then "Medium" else c1) else c1
  if usedDefaultCoverage db req then (if c2 = "High" then "Medium" else c2) else c2

/-- The coverage-source assumption recorded at lines 292/297/304. -/
def coverageAssumption (db : Db) (req : CostCalculationRequest) : Assumption :=
  let c := coverageTriple db req
  if req.custom_coverage then
    Assumption.customCoverageInfo (c.1 * 100) (c.2.1 * 100) (c.2.2 * 100)
  else
    match insurerResolved db req with
    | some ins =>
        Assumption.insurerCoverageInfo (ins.name.getD "Unknown")
          (c.1 * 100) (c.2.1 * 100) (c.2.2 * 100)
    | none => Assumption.defaultCoverageInfo (c.1 * 100) (c.2.1 * 100) (c.2.2 * 100)

/-- The assumptions accumulated through sections 1-8, in append order
(lines 77-329). -/
def assumptionsBeforeCurrency (db : Db) (req : CostCalculationRequest) : List Assumption :=
  let n := normalizeInputs req
  (if countryDefaulted db req then [Assumption.usingDefaultCountry (countryIdOf req)] else []) ++
  (if baseCostsDefaulted db req then [Assumption.usingDefaultBaseCosts (countryIdOf req)] else []) ++
  (if req.include_surgery then
    [Assumption.surgeryInfo (optOr req.surgery_type "Not specified")
      n.surgery_days n.icu_days (strOr req.room_category "semi_private")]
   else []) ++
  (if req.include_chemo then
    [Assumption.chemoInfo n.chemo_cycles (optOr req.regimen_type "standard_chemo")
      (strOr req.drug_access "generics")]
   else []) ++
  (if req.include_radiation then
    (if req.concurrent_chemo then [Assumption.concurrentChemoInfo] else []) ++
      [Assumption.radiationInfo n.radiation_fractions (optOr req.radiation_technique "3d_crt")]
   else []) ++
  (if req.include_transplant then
    [Assumption.transplantInfo (optOr req.transplant_type "autologous") n.transplant_days]
   else []) ++
  (if req.include_ngs then [Assumption.ngsIncluded] else []) ++
  (if 0 < n.pet_ct_count ∨ 0 < n.mri_ct_count then
    [Assumption.diagnosticsInfo n.pet_ct_count n.mri_ct_count n.opd_consults]
   else []) ++
  [Assumption.tourismInfo n.companions n.stay_duration
    (strOr req.accommodation_level "mid") (strOr req.travel_type "economy")] ++
  (if req.has_insurance then
    [coverageAssumption db req,
     Assumption.deductibleInfo n.deductible
       ((resolvedCountry db req).currency.getD "USD") n.copay_percent]
   else [Assumption.noInsurance])

/-- Lines 386-390: prepend the currency-disclosure line(s). -/
def assumptionsWithCurrency (db : Db) (req : CostCalculationRequest) : List Assumption :=
  if currencyCodeOf db req = "USD" then
    (assumptionsBeforeCurrency db req).insertIdx 0
      (Assumption.currencyBase (currencyCodeOf db req))
  else
    (((assumptionsBeforeCurrency db req).insertIdx 0
        (Assumption.exchangeRateInfo (exchangeRate db req) (currencyCodeOf db req))).insertIdx 1
      (Assumption.convertedToUsd (exchangeRate db req)))

/-- Lines 392-416: the final assumptions list. -/
def assumptionsFinal (db : Db) (req : CostCalculationRequest) : List Assumption :=
  let n := normalizeInputs req
  let a1 := assumptionsWithCurrency db req
  let a2 := a1.insertIdx (a1.length - 3)
    (Assumption.hospitalTierInfo (hospitalTierNameOf db req) (tierMultiplier db req))
  let a3 := a2 ++
    [Assumption.complicationBufferInfo n.complication_buffer,
     Assumption.confidenceInfo (confidenceAt394 db req),
     Assumption.countryBaselineInfo ((resolvedCountry db req).name.getD "selected country"),
     Assumption.dataVintageInfo]
  let a4 := a3 ++
    (if (resolvedCountry db req).data_quality.getD "medium" = "medium" then
      [Assumption.dataQualityWarning] else [])
  let a5 := a4 ++
    (if !req.include_surgery && !req.include_chemo && !req.include_radiation &&
        !req.include_transplant then [Assumption.noModalitiesWarning] else [])
  let a6 := a5 ++ (if req.cancer_type = "" then [Assumption.cancerTypeWarning] else [])
  a6 ++ (if req.stage = "" then [Assumption.stageWarning] else [])

/-- `x / rate if code != 'USD' else x` — the conversion applied uniformly at
lines 349-363 and 371-381. -/
def convertUsd (code : String) (rate x : ℚ) : ℚ :=
  if code = "USD" then x else x / rate

/-- Lines 371-381: the USD breakdown divides the ROUNDED local entries and
rounds again (entry-wise guard on the currency code). -/
def breakdownUsd (db : Db) (req : CostCalculationRequest) : CostBreakdown :=
  { surgery := round2 (convertUsd (currencyCodeOf db req) (exchangeRate db req)
      (breakdownLocal db req).surgery)
    chemotherapy := round2 (convertUsd (currencyCodeOf db req) (exchangeRate db req)
      (breakdownLocal db req).chemotherapy)
    radiation := round2 (convertUsd (currencyCodeOf db req) (exchangeRate db req)
      (breakdownLocal db req).radiation)
    transplant := round2 (convertUsd (currencyCodeOf db req) (exchangeRate db req)
      (breakdownLocal db req).transplant)
    diagnostics := round2 (convertUsd (currencyCodeOf db req) (exchangeRate db req)
      (breakdownLocal db req).diagnostics)
    accommodation := round2 (convertUsd (currencyCodeOf db req) (exchangeRate db req)
      (breakdownLocal db req).accommodation)
    travel := round2 (convertUsd (currencyCodeOf db req) (exchangeRate db req)
      (breakdownLocal db req).travel)
    local_transport := round2 (convertUsd (currencyCodeOf db req) (exchangeRate db req)
      (breakdownLocal db req).local_transport)
    food := round2 (convertUsd (currencyCodeOf db req) (exchangeRate db req)
      (breakdownLocal db req).food) }

/-- Lines 347-439: the response object built by the successful main path
(the keyword arguments of the `CostCalculationResponse(...)` call; `currency`
is never among them). -/
def mainResponse (db : Db) (req : CostCalculationRequest) : CostCalculationResponse :=
  { total_cost_local := round2 (totalBeforeInsurance db req)
    total_cost_usd := round2 (convertUsd (currencyCodeOf db req) (exchangeRate db req)
      (totalBeforeInsurance db req))
    total_cost_inr := round2 (convertUsd (currencyCodeOf db req) (exchangeRate db req)
      (totalBeforeInsurance db req) * USD_TO_INR_RATE)
    clinical_cost := round2 (clinicalCostRaw db req)
    clinical_cost_usd := round2 (convertUsd (currencyCodeOf db req) (exchangeRate db req)
      (clinicalCostRaw db req))
    non_clinical_cost := round2 (nonClinicalCostRaw db req)
    non_clinical_cost_usd := round2 (convertUsd (currencyCodeOf db req) (exchangeRate db req)
      (nonClinicalCostRaw db req))
    insurance_pays := round2 (insurancePaysRaw db req)
    insurance_pays_usd := round2 (convertUsd (currencyCodeOf db req) (exchangeRate db req)
      (insurancePaysRaw db req))
    patient_out_of_pocket := round2 (patientOutOfPocketRaw db req)
    patient_out_of_pocket_usd := round2 (convertUsd (currencyCodeOf db req)
      (exchangeRate db req) (patientOutOfPocketRaw db req))
    breakdown := breakdownLocal db req
    breakdown_usd := breakdownUsd db req
    currency_code := currencyCodeOf db req
    currency_symbol := currencySymbolOf db req
    exchange_rate_to_usd := exchangeRate db req
    assumptions := assumptionsFinal db req }

/-- The main `try` body (lines 29-441). The only runtime fault reachable in
the embedded fragment is the division by `exchange_rate_to_usd` at lines
359-363 when the resolved rate normalizes to 0 and the currency is not USD
(Python ZeroDivisionError), modelled as `Except.error`. -/
def calcMain (db : Db) (req : CostCalculationRequest) :
    Except Unit CostCalculationResponse :=
  if currencyCodeOf db req = "USD" then Except.ok (mainResponse db req)
  else if exchangeRate db req = 0 then Except.error ()
  else Except.ok (mainResponse db req)

/-- Line 448: the country dict used by the fallback layer (always a compiled
entry, hence no `fx_rate` key). -/
def fallbackCountryDict (req : CostCalculationRequest) : CountryDoc :=
  countryDataToDict (get_country_data req.country)

/-- Line 449: `fx_rate` from the fallback country dict, default 83.0. -/
def fallbackFx (req : CostCalculationRequest) : ℚ :=
  normalize_number (some ((fallbackCountryDict req).fx_rate.getD (PyVal.rat 83))) 83 0

/-- Line 455. -/
def fallbackRate (req : CostCalculationRequest) : ℚ :=
  normalize_number
    (some ((fallbackCountryDict req).exchange_rate_to_usd.getD (PyVal.rat 1))) 1 0

/-- Line 456. -/
def fallbackCode (req : CostCalculationRequest) : String :=
  (fallbackCountryDict req).currency_code.getD
    ((fallbackCountryDict req).currency.getD "USD")

/-- Line 458: `1000 * fx_rate`. -/
def fallbackLocalCost (req : CostCalculationRequest) : ℚ :=
  1000 * fallbackFx req

/-- Line 459. -/
def fallbackUsdCost (req : CostCalculationRequest) : ℚ :=
  if fallbackCode req ≠ "USD" then fallbackLocalCost req / fallbackRate req
  else fallbackLocalCost req

/-- Lines 446-483: the minimal diagnostic-only fallback response. -/
def fallbackResponse (req : CostCalculationRequest) : CostCalculationResponse :=
  { total_cost_local := round2 (fallbackLocalCost req)
    total_cost_usd := round2 (fallbackUsdCost req)
    total_cost_inr := round2 (fallbackUsdCost req * 83)
    clinical_cost := round2 (fallbackLocalCost req)
    clinical_cost_usd := round2 (fallbackUsdCost req)
    non_clinical_cost := 0
    non_clinical_cost_usd := 0
    insurance_pays := 0
    insurance_pays_usd := 0
    patient_out_of_pocket := round2 (fallbackLocalCost req)
    patient_out_of_pocket_usd := round2 (fallbackUsdCost req)
    breakdown := { diagnostics := fallbackLocalCost req }
    breakdown_usd := {}
    currency_code := fallbackCode req
    currency_symbol := (fallbackCountryDict req).currency_symbol.getD "$"
    exchange_rate_to_usd := fallbackRate req
    assumptions := [Assumption.calcErrorWarning, Assumption.verifyInputsInfo,
      Assumption.errorMsgInfo] }

/-- The fallback layer as an `Except`: it can itself only fault on the
division at line 459 (rate 0 with a non-USD currency). -/
def calcFallback (req : CostCalculationRequest) :
    Except Unit CostCalculationResponse :=
  if fallbackCode req = "USD" then Except.ok (fallbackResponse req)
  else if fallbackRate req = 0 then Except.error ()
  else Except.ok (fallbackResponse req)

/-- Lines 486-510: the hardcoded last-resort response. -/
def lastResortResponse : CostCalculationResponse :=
  { total_cost_local := 50000
    total_cost_usd := 50000
    total_cost_inr := round2 (50000 * USD_TO_INR_RATE)
    clinical_cost := 50000
    clinical_cost_usd := 50000
    non_clinical_cost := 0
    non_clinical_cost_usd := 0
    insurance_pays := 0
    insurance_pays_usd := 0
    patient_out_of_pocket := 50000
    patient_out_of_pocket_usd := 50000
    breakdown := {}
    breakdown_usd := {}
    currency_code := "USD"
    currency_symbol := "$"
    exchange_rate_to_usd := 1
    assumptions := [Assumption.criticalErrorWarning, Assumption.contactSupportInfo] }

/-- calculate_treatment_cost at the level of the computed response record: the
triple-layered degradation of lines 29-510 (main compute → default-only
compute → hardcoded constant). -/
def calculate_treatment_cost (db : Db) (req : CostCalculationRequest) :
    CostCalculationResponse :=
  match calcMain db req with
  | Except.ok r => r
  | Except.error _ =>
      match calcFallback req with
      | Except.ok r => r
      | Except.error _ => lastResortResponse

/-- calculate_treatment_cost INCLUDING the pydantic construction of the
response model declared in models.py: each layer's construction is validated;
a ValidationError from the first two layers is caught by the surrounding
`except` blocks, but one raised by the last-resort construction (line 489)
propagates to the caller. -/
def calculate_treatment_cost_checked (db : Db) (req : CostCalculationRequest) :
    Except Unit CostCalculationResponseModel :=
  match (calcMain db req).bind pydanticValidateResponse with
  | Except.ok r => Except.ok r
  | Except.error _ =>
      match (calcFallback req).bind pydanticValidateResponse with
      | Except.ok r => Except.ok r
      | Except.error _ => pydanticValidateResponse lastResortResponse

-- ---------------------------------------------------------------------------
-- Decidability and shared concrete inputs used by witnesses
-- ---------------------------------------------------------------------------

instance {α β : Type} [DecidableEq α] [DecidableEq β] : DecidableEq (Except α β) :=
  fun a b =>
    match a, b with
    | Except.ok x, Except.ok y =>
        if h : x = y then isTrue (by rw [h]) else isFalse (fun hh => h (Except.ok.inj hh))
    | Except.error x, Except.error y =>
        if h : x = y then isTrue (by rw [h]) else isFalse (fun hh => h (Except.error.inj hh))
    | Except.ok _, Except.error _ => isFalse (fun hh => Except.noConfusion hh)
    | Except.error _, Except.ok _ => isFalse (fun hh => Except.noConfusion hh)

/-- The store with no reachable data (`self.db is None`, or an empty store). -/
def dbEmpty : Db :=
  { countries := fun _ => DbResult.missing
    base_costs := fun _ => DbResult.missing
    hospital_tiers := fun _ => DbResult.missing
    accommodation_costs := fun _ => DbResult.missing
    insurers := fun _ => DbResult.missing }

/-- The minimal USA request of spec §8 scenario 7. -/
def reqMinUsa : CostCalculationRequest :=
  { country := "usa", hospital_tier := "tier_3", age_group := "adult"
    cancer_category := "common", cancer_type := "breast", stage := "stage_2"
    intent := "curative" }

/-- The standard insured India request of the repository's test_calculator.py. -/
def reqIndiaIns : CostCalculationRequest :=
  { country := "india", hospital_tier := "tier_2", age_group := "adult"
    cancer_category := "common", cancer_type := "breast", stage := "stage_2"
    intent := "curative"
    include_surgery := true, surgery_type := some "mastectomy"
    surgery_days := PyVal.rat 5, icu_days := PyVal.rat 1
    include_chemo := true, regimen_type := some "standard_chemo"
    has_insurance := true, custom_coverage := true }

-- ---------------------------------------------------------------------------
-- Nonnegativity tool-kit
-- ---------------------------------------------------------------------------

theorem normalize_number_nonneg (v : Option PyVal) {d m : ℚ}
    (hd : 0 ≤ d) (hm : 0 ≤ m) : 0 ≤ normalize_number v d m := by
  cases v with
  | none => exact le_trans hm (le_max_left m d)
  | some pv =>
    cases pv with
    | rat q => exact le_trans hm (le_max_left m q)
    | nan => exact le_trans hm (le_max_left m d)
    | nonNum => exact hd

theorem clamp_number_nonneg {v : ℚ} {a b : ℚ} (ha : 0 ≤ a) (hb : 0 ≤ b) :
    0 ≤ clamp_number v a b :=
  le_min (le_trans ha (le_max_right v a)) hb

theorem clamp_number_le_right {v a b : ℚ} : clamp_number v a b ≤ b :=
  min_le_right _ _

theorem clamp_number_mono {v w a b : ℚ} (h : v ≤ w) :
    clamp_number v a b ≤ clamp_number w a b :=
  min_le_min (max_le_max h (le_refl a)) (le_refl b)

theorem normalize_number_mono_rat {q r : ℚ} {d m : ℚ} (h : q ≤ r) :
    normalize_number (some (PyVal.rat q)) d m ≤ normalize_number (some (PyVal.rat r)) d m :=
  max_le_max (le_refl m) h

theorem ROOM_CATEGORY_MULTIPLIERS_nonneg (k : String) :
    0 ≤ ROOM_CATEGORY_MULTIPLIERS k := by
  unfold ROOM_CATEGORY_MULTIPLIERS
  repeat' split
  all_goals norm_num

theorem REGIMEN_MULTIPLIERS_nonneg (k : String) : 0 ≤ REGIMEN_MULTIPLIERS k := by
  unfold REGIMEN_MULTIPLIERS
  repeat' split
  all_goals norm_num

theorem DRUG_ACCESS_MULTIPLIERS_nonneg (k : String) : 0 ≤ DRUG_ACCESS_MULTIPLIERS k := by
  unfold DRUG_ACCESS_MULTIPLIERS
  repeat' split
  all_goals norm_num

theorem RADIATION_TECHNIQUE_MULTIPLIERS_nonneg (k : String) :
    0 ≤ RADIATION_TECHNIQUE_MULTIPLIERS k := by
  unfold RADIATION_TECHNIQUE_MULTIPLIERS
  repeat' split
  all_goals norm_num

theorem TRANSPLANT_TYPE_MULTIPLIERS_nonneg (k : String) :
    0 ≤ TRANSPLANT_TYPE_MULTIPLIERS k := by
  unfold TRANSPLANT_TYPE_MULTIPLIERS
  repeat' split
  all_goals norm_num

theorem TRAVEL_TYPE_MULTIPLIERS_nonneg (k : String) : 0 ≤ TRAVEL_TYPE_MULTIPLIERS k := by
  unfold TRAVEL_TYPE_MULTIPLIERS
  repeat' split
  all_goals norm_num

theorem LOCAL_TRANSPORT_COSTS_nonneg (k : String) : 0 ≤ LOCAL_TRANSPORT_COSTS k := by
  unfold LOCAL_TRANSPORT_COSTS
  repeat' split
  all_goals norm_num

theorem HOSPITAL_TIER_MULTIPLIERS_nonneg (k : String) {d : ℚ} (hd : 0 ≤ d) :
    0 ≤ HOSPITAL_TIER_MULTIPLIERS k d := by
  unfold HOSPITAL_TIER_MULTIPLIERS
  repeat' split
  all_goals first | exact hd | norm_num

theorem tierFetched_fst_nonneg (db : Db) (req : CostCalculationRequest) :
    0 ≤ (tierFetched db req).1 := by
  unfold tierFetched
  cases (db.hospital_tiers (hospitalTierIdOf req)).toOption with
  | none => norm_num [DEFAULT_HOSPITAL_TIER_MULTIPLIER]
  | some d =>
      exact normalize_number_nonneg d.multiplier
        (by norm_num [DEFAULT_HOSPITAL_TIER_MULTIPLIER]) (le_refl 0)

theorem tierMultiplier_nonneg (db : Db) (req : CostCalculationRequest) :
    0 ≤ tierMultiplier db req := by
  show 0 ≤ if (tierFetched db req).1 = DEFAULT_HOSPITAL_TIER_MULTIPLIER then
    HOSPITAL_TIER_MULTIPLIERS (hospitalTierIdOf req) DEFAULT_HOSPITAL_TIER_MULTIPLIER
    else (tierFetched db req).1
  split
  · exact HOSPITAL_TIER_MULTIPLIERS_nonneg _ (by norm_num [DEFAULT_HOSPITAL_TIER_MULTIPLIER])
  · exact tierFetched_fst_nonneg db req

theorem normalizedInputs_nonneg (req : CostCalculationRequest) :
    0 ≤ (normalizeInputs req).surgery_days ∧ 0 ≤ (normalizeInputs req).icu_days ∧
    0 ≤ (normalizeInputs req).chemo_cycles ∧ 0 ≤ (normalizeInputs req).radiation_fractions ∧
    0 ≤ (normalizeInputs req).transplant_days ∧ 0 ≤ (normalizeInputs req).pet_ct_count ∧
    0 ≤ (normalizeInputs req).mri_ct_count ∧ 0 ≤ (normalizeInputs req).opd_consults ∧
    0 ≤ (normalizeInputs req).companions ∧ 0 ≤ (normalizeInputs req).stay_duration ∧
    0 ≤ (normalizeInputs req).return_trips ∧ 0 ≤ (normalizeInputs req).complication_buffer ∧
    0 ≤ (normalizeInputs req).deductible ∧ 0 ≤ (normalizeInputs req).copay_percent := by
  simp only [normalizeInputs]
  exact ⟨clamp_number_nonneg (by norm_num) (by norm_num),
    clamp_number_nonneg (by norm_num) (by norm_num),
    clamp_number_nonneg (by norm_num) (by norm_num),
    clamp_number_nonneg (by norm_num) (by norm_num),
    clamp_number_nonneg (by norm_num) (by norm_num),
    clamp_number_nonneg (by norm_num) (by norm_num),
    clamp_number_nonneg (by norm_num) (by norm_num),
    clamp_number_nonneg (by norm_num) (by norm_num),
    clamp_number_nonneg (by norm_num) (by norm_num),
    clamp_number_nonneg (by norm_num) (by norm_num),
    clamp_number_nonneg (by norm_num) (by norm_num),
    clamp_number_nonneg (by norm_num) (by norm_num),
    normalize_number_nonneg _ (by norm_num) (by norm_num),
    clamp_number_nonneg (by norm_num) (by norm_num)⟩

theorem copay_le_fifty (req : CostCalculationRequest) :
    (normalizeInputs req).copay_percent ≤ 50 :=
  clamp_number_le_right

/-- The co-pay retention factor is nonnegative. -/
theorem copay_factor_nonneg (req : CostCalculationRequest) :
    0 ≤ 1 - (normalizeInputs req).copay_percent / 100 := by
  have h := copay_le_fifty req
  linarith

theorem surgeryRawCost_nonneg (db : Db) (req : CostCalculationRequest) :
    0 ≤ surgeryRawCost db req := by
  obtain ⟨h1, h2, -⟩ := normalizedInputs_nonneg req
  unfold surgeryRawCost
  split
  · refine add_nonneg (add_nonneg ?_ ?_) ?_
    · exact mul_nonneg (normalize_number_nonneg _ (le_refl 0) (le_refl 0))
        (tierMultiplier_nonneg db req)
    · exact mul_nonneg
        (mul_nonneg (normalize_number_nonneg _ (le_refl 0) (le_refl 0)) h1)
        (ROOM_CATEGORY_MULTIPLIERS_nonneg _)
    · exact mul_nonneg (normalize_number_nonneg _ (le_refl 0) (le_refl 0)) h2
  · exact le_refl 0

theorem chemoRawCost_nonneg (db : Db) (req : CostCalculationRequest) :
    0 ≤ chemoRawCost db req := by
  obtain ⟨-, -, h3, -⟩ := normalizedInputs_nonneg req
  unfold chemoRawCost
  split
  · have hc : 0 ≤ normalize_number (resolvedBaseCosts db req).chemo_per_cycle 0 0 *
        REGIMEN_MULTIPLIERS (optOr req.regimen_type "standard_chemo") *
        DRUG_ACCESS_MULTIPLIERS (strOr req.drug_access "generics") :=
      mul_nonneg (mul_nonneg (normalize_number_nonneg _ (le_refl 0) (le_refl 0))
        (REGIMEN_MULTIPLIERS_nonneg _)) (DRUG_ACCESS_MULTIPLIERS_nonneg _)
    refine mul_nonneg (mul_nonneg ?_ h3) (tierMultiplier_nonneg db req)
    nlinarith
  · exact le_refl 0

theorem radiationRawCost_nonneg (db : Db) (req : CostCalculationRequest) :
    0 ≤ radiationRawCost db req := by
  obtain ⟨-, -, -, h4, -⟩ := normalizedInputs_nonneg req
  unfold radiationRawCost
  split
  · refine add_nonneg ?_ ?_
    · exact mul_nonneg (mul_nonneg
        (mul_nonneg (normalize_number_nonneg _ (le_refl 0) (le_refl 0))
          (RADIATION_TECHNIQUE_MULTIPLIERS_nonneg _)) h4)
        (tierMultiplier_nonneg db req)
    · split
      · exact mul_nonneg (mul_nonneg (normalize_number_nonneg _ (le_refl 0) (le_refl 0))
          (by norm_num)) (tierMultiplier_nonneg db req)
      · exact le_refl 0
  · exact le_refl 0

theorem transplantRawCost_nonneg (db : Db) (req : CostCalculationRequest) :
    0 ≤ transplantRawCost db req := by
  obtain ⟨-, -, -, -, h5, -⟩ := normalizedInputs_nonneg req
  unfold transplantRawCost
  split
  · refine add_nonneg ?_ ?_
    · exact mul_nonneg (mul_nonneg (normalize_number_nonneg _ (le_refl 0) (le_refl 0))
        (tierMultiplier_nonneg db req)) (TRANSPLANT_TYPE_MULTIPLIERS_nonneg _)
    · exact mul_nonneg (normalize_number_nonneg _ (le_refl 0) (le_refl 0)) h5
  · exact le_refl 0

theorem diagnosticsRawCost_nonneg (db : Db) (req : CostCalculationRequest) :
    0 ≤ diagnosticsRawCost db req := by
  obtain ⟨-, -, -, -, -, h6, h7, h8, -⟩ := normalizedInputs_nonneg req
  unfold diagnosticsRawCost
  refine add_nonneg (add_nonneg (add_nonneg ?_ ?_) ?_) ?_
  · exact mul_nonneg (normalize_number_nonneg _ (le_refl 0) (le_refl 0)) h6
  · exact mul_nonneg (normalize_number_nonneg _ (le_refl 0) (le_refl 0)) h7
  · split
    · exact normalize_number_nonneg _ (le_refl 0) (le_refl 0)
    · exact le_refl 0
  · exact mul_nonneg (normalize_number_nonneg _ (le_refl 0) (le_refl 0)) h8

theorem clinicalCostRaw_nonneg (db : Db) (req : CostCalculationRequest) :
    0 ≤ clinicalCostRaw db req := by
  unfold clinicalCostRaw
  have := surgeryRawCost_nonneg db req
  have := chemoRawCost_nonneg db req
  have := radiationRawCost_nonneg db req
  have := transplantRawCost_nonneg db req
  have := diagnosticsRawCost_nonneg db req
  linarith

theorem fxRateFactor_nonneg (db : Db) (req : CostCalculationRequest) :
    0 ≤ fxRateFactor db req :=
  normalize_number_nonneg _ (le_refl 0) (le_refl 0)

theorem accommodationRawCost_nonneg (db : Db) (req : CostCalculationRequest) :
    0 ≤ accommodationRawCost db req := by
  obtain ⟨-, -, -, -, -, -, -, -, h9, h10, -⟩ := normalizedInputs_nonneg req
  unfold accommodationRawCost
  exact mul_nonneg (mul_nonneg (normalize_number_nonneg _ (le_refl 0) (le_refl 0)) h10)
    (by linarith)

theorem travelRawCost_nonneg (db : Db) (req : CostCalculationRequest) :
    0 ≤ travelRawCost db req := by
  obtain ⟨-, -, -, -, -, -, -, -, h9, -, h11, -⟩ := normalizedInputs_nonneg req
  unfold travelRawCost
  refine mul_nonneg (mul_nonneg (mul_nonneg (mul_nonneg ?_ ?_) ?_) h11) (by linarith)
  · norm_num [BASE_FLIGHT_COST_USD]
  · exact fxRateFactor_nonneg db req
  · exact TRAVEL_TYPE_MULTIPLIERS_nonneg _

theorem localTransportRawCost_nonneg (db : Db) (req : CostCalculationRequest) :
    0 ≤ localTransportRawCost db req := by
  obtain ⟨-, -, -, -, -, -, -, -, -, h10, -⟩ := normalizedInputs_nonneg req
  unfold localTransportRawCost
  exact mul_nonneg (mul_nonneg (LOCAL_TRANSPORT_COSTS_nonneg _)
    (fxRateFactor_nonneg db req)) h10

theorem foodRawCost_nonneg (db : Db) (req : CostCalculationRequest) :
    0 ≤ foodRawCost db req := by
  obtain ⟨-, -, -, -, -, -, -, -, h9, h10, -⟩ := normalizedInputs_nonneg req
  unfold foodRawCost
  refine mul_nonneg (mul_nonneg (mul_nonneg ?_ ?_) h10) (by linarith)
  · norm_num [FOOD_COST_PER_DAY_USD]
  · exact fxRateFactor_nonneg db req

theorem nonClinicalCostRaw_nonneg (db : Db) (req : CostCalculationRequest) :
    0 ≤ nonClinicalCostRaw db req := by
  unfold nonClinicalCostRaw
  have := accommodationRawCost_nonneg db req
  have := travelRawCost_nonneg db req
  have := localTransportRawCost_nonneg db req
  have := foodRawCost_nonneg db req
  linarith

theorem totalBeforeInsurance_nonneg (db : Db) (req : CostCalculationRequest) :
    0 ≤ totalBeforeInsurance db req := by
  obtain ⟨-, -, -, -, -, -, -, -, -, -, -, h12, -⟩ := normalizedInputs_nonneg req
  unfold totalBeforeInsurance bufferAmount
  have h1 := clinicalCostRaw_nonneg db req
  have h2 := nonClinicalCostRaw_nonneg db req
  have h3 : 0 ≤ clinicalCostRaw db req * ((normalizeInputs req).complication_buffer / 100) :=
    mul_nonneg h1 (by linarith)
  linarith

theorem coverageTriple_nonneg (db : Db) (req : CostCalculationRequest) :
    0 ≤ (coverageTriple db req).1 ∧ 0 ≤ (coverageTriple db req).2.1 ∧
      0 ≤ (coverageTriple db req).2.2 := by
  unfold coverageTriple
  split
  · refine ⟨?_, ?_, ?_⟩ <;>
      exact div_nonneg (clamp_number_nonneg (by norm_num) (by norm_num)) (by norm_num)
  · split
    · refine ⟨?_, ?_, ?_⟩ <;>
        exact div_nonneg (normalize_number_nonneg _ (by norm_num) (by norm_num)) (by norm_num)
    · refine ⟨?_, ?_, ?_⟩ <;>
        norm_num [DEFAULT_INSURANCE_COVERAGE_inpatient, DEFAULT_INSURANCE_COVERAGE_outpatient,
          DEFAULT_INSURANCE_COVERAGE_drug]

theorem insurancePaysRaw_nonneg (db : Db) (req : CostCalculationRequest) :
    0 ≤ insurancePaysRaw db req := by
  unfold insurancePaysRaw
  split
  · exact mul_nonneg (le_max_left 0 _) (copay_factor_nonneg req)
  · exact le_refl 0

theorem patientOutOfPocketRaw_nonneg (db : Db) (req : CostCalculationRequest) :
    0 ≤ patientOutOfPocketRaw db req :=
  le_max_left 0 _

theorem exchangeRate_nonneg (db : Db) (req : CostCalculationRequest) :
    0 ≤ exchangeRate db req :=
  normalize_number_nonneg _ (by norm_num) (le_refl 0)

-- ---------------------------------------------------------------------------
-- Case analysis of the three degradation layers
-- ---------------------------------------------------------------------------

theorem calcMain_ok_val (db : Db) (req : CostCalculationRequest)
    (r : CostCalculationResponse) (h : calcMain db req = Except.ok r) :
    r = mainResponse db req := by
  unfold calcMain at h
  split_ifs at h
  all_goals exact (Except.ok.inj h).symm

theorem calcFallback_ok_val (req : CostCalculationRequest)
    (r : CostCalculationResponse) (h : calcFallback req = Except.ok r) :
    r = fallbackResponse req := by
  unfold calcFallback at h
  split_ifs at h
  all_goals exact (Except.ok.inj h).symm

theorem calculate_cases (db : Db) (req : CostCalculationRequest) :
    calculate_treatment_cost db req = mainResponse db req ∨
    calculate_treatment_cost db req = fallbackResponse req ∨
    calculate_treatment_cost db req = lastResortResponse := by
  unfold calculate_treatment_cost
  cases hc : calcMain db req with
  | ok r => exact Or.inl (calcMain_ok_val db req r hc)
  | error e =>
      cases hf : calcFallback req with
      | ok r => exact Or.inr (Or.inl (calcFallback_ok_val req r hf))
      | error e2 => exact Or.inr (Or.inr rfl)

theorem pyd_error_of_none (d : CostCalculationResponse) (h : d.currency = none) :
    pydanticValidateResponse d = Except.error () := by
  unfold pydanticValidateResponse
  rw [h]

/-- C1: models.py's `CostCalculationResponse` requires a `currency` field the
service never passes (and lacks the USD fields it does pass), so every one of
the three construction layers raises a pydantic ValidationError; the
last-resort layer's error is uncaught, so `calculate_treatment_cost` always
raises to its caller instead of returning a response — for every request and
every store state. -/
theorem calculate_treatment_cost_checked_always_raises (db : Db)
    (req : CostCalculationRequest) :
    calculate_treatment_cost_checked db req = Except.error () := by
  have h1 : (calcMain db req).bind pydanticValidateResponse = Except.error () := by
    cases hc : calcMain db req with
    | error e => rfl
    | ok r =>
        have hr : r = mainResponse db req := calcMain_ok_val db req r hc
        subst hr
        show pydanticValidateResponse (mainResponse db req) = Except.error ()
        exact pyd_error_of_none (mainResponse db req) rfl
  have h2 : (calcFallback req).bind pydanticValidateResponse = Except.error () := by
    cases hf : calcFallback req with
    | error e => rfl
    | ok r =>
        have hr : r = fallbackResponse req := calcFallback_ok_val req r hf
        subst hr
        show pydanticValidateResponse (fallbackResponse req) = Except.error ()
        exact pyd_error_of_none (fallbackResponse req) rfl
  have h3 : pydanticValidateResponse lastResortResponse = Except.error () :=
    pyd_error_of_none _ rfl
  unfold calculate_treatment_cost_checked
  rw [h1, h2]
  exact h3

-- ---------------------------------------------------------------------------
-- C7: non-negativity of every monetary field
-- ---------------------------------------------------------------------------

/-- The monetary fields named by the non-negativity invariant. -/
def monetaryFieldsNonneg (r : CostCalculationResponse) : Prop :=
  0 ≤ r.total_cost_local ∧ 0 ≤ r.total_cost_usd ∧
  0 ≤ r.clinical_cost ∧ 0 ≤ r.non_clinical_cost ∧
  0 ≤ r.insurance_pays ∧ 0 ≤ r.patient_out_of_pocket ∧
  0 ≤ r.breakdown.surgery ∧ 0 ≤ r.breakdown.chemotherapy ∧
  0 ≤ r.breakdown.radiation ∧ 0 ≤ r.breakdown.transplant ∧
  0 ≤ r.breakdown.diagnostics ∧ 0 ≤ r.breakdown.accommodation ∧
  0 ≤ r.breakdown.travel ∧ 0 ≤ r.breakdown.local_transport ∧
  0 ≤ r.breakdown.food ∧
  0 ≤ r.breakdown_usd.surgery ∧ 0 ≤ r.breakdown_usd.chemotherapy ∧
  0 ≤ r.breakdown_usd.radiation ∧ 0 ≤ r.breakdown_usd.transplant ∧
  0 ≤ r.breakdown_usd.diagnostics ∧ 0 ≤ r.breakdown_usd.accommodation ∧
  0 ≤ r.breakdown_usd.travel ∧ 0 ≤ r.breakdown_usd.local_transport ∧
  0 ≤ r.breakdown_usd.food

theorem convertUsd_nonneg {code : String} {rate x : ℚ} (hr : 0 ≤ rate) (hx : 0 ≤ x) :
    0 ≤ convertUsd code rate x := by
  unfold convertUsd
  split
  · exact hx
  · exact div_nonneg hx hr

theorem mainResponse_monetary_nonneg (db : Db) (req : CostCalculationRequest) :
    monetaryFieldsNonneg (mainResponse db req) := by
  have hrate := exchangeRate_nonneg db req
  have hs := surgeryRawCost_nonneg db req
  have hc := chemoRawCost_nonneg db req
  have hr := radiationRawCost_nonneg db req
  have ht := transplantRawCost_nonneg db req
  have hd := diagnosticsRawCost_nonneg db req
  have ha := accommodationRawCost_nonneg db req
  have htr := travelRawCost_nonneg db req
  have hl := localTransportRawCost_nonneg db req
  have hf := foodRawCost_nonneg db req
  have hT := totalBeforeInsurance_nonneg db req
  have hC := clinicalCostRaw_nonneg db req
  have hN := nonClinicalCostRaw_nonneg db req
  have hI := insurancePaysRaw_nonneg db req
  have hP := patientOutOfPocketRaw_nonneg db req
  exact ⟨round2_nonneg hT,
    round2_nonneg (convertUsd_nonneg hrate hT),
    round2_nonneg hC,
    round2_nonneg hN,
    round2_nonneg hI,
    round2_nonneg hP,
    round2_nonneg hs, round2_nonneg hc, round2_nonneg hr, round2_nonneg ht,
    round2_nonneg hd, round2_nonneg ha, round2_nonneg htr, round2_nonneg hl,
    round2_nonneg hf,
    round2_nonneg (convertUsd_nonneg hrate (round2_nonneg hs)),
    round2_nonneg (convertUsd_nonneg hrate (round2_nonneg hc)),
    round2_nonneg (convertUsd_nonneg hrate (round2_nonneg hr)),
    round2_nonneg (convertUsd_nonneg hrate (round2_nonneg ht)),
    round2_nonneg (convertUsd_nonneg hrate (round2_nonneg hd)),
    round2_nonneg (convertUsd_nonneg hrate (round2_nonneg ha)),
    round2_nonneg (convertUsd_nonneg hrate (round2_nonneg htr)),
    round2_nonneg (convertUsd_nonneg hrate (round2_nonneg hl)),
    round2_nonneg (convertUsd_nonneg hrate (round2_nonneg hf))⟩

theorem fallbackFx_nonneg (req : CostCalculationRequest) : 0 ≤ fallbackFx req :=
  normalize_number_nonneg _ (by norm_num) (le_refl 0)

theorem fallbackRate_nonneg (req : CostCalculationRequest) : 0 ≤ fallbackRate req :=
  normalize_number_nonneg _ (by norm_num) (le_refl 0)

theorem fallbackLocalCost_nonneg (req : CostCalculationRequest) :
    0 ≤ fallbackLocalCost req := by
  have := fallbackFx_nonneg req
  unfold fallbackLocalCost
  nlinarith

theorem fallbackUsdCost_nonneg (req : CostCalculationRequest) :
    0 ≤ fallbackUsdCost req := by
  unfold fallbackUsdCost
  split
  · exact div_nonneg (fallbackLocalCost_nonneg req) (fallbackRate_nonneg req)
  · exact fallbackLocalCost_nonneg req

theorem fallbackResponse_monetary_nonneg (req : CostCalculationRequest) :
    monetaryFieldsNonneg (fallbackResponse req) := by
  have hloc := fallbackLocalCost_nonneg req
  have husd := fallbackUsdCost_nonneg req
  exact ⟨round2_nonneg hloc, round2_nonneg husd, round2_nonneg hloc, le_refl 0,
    le_refl 0, round2_nonneg hloc,
    le_refl 0, le_refl 0, le_refl 0, le_refl 0, hloc, le_refl 0, le_refl 0, le_refl 0,
    le_refl 0,
    le_refl 0, le_refl 0, le_refl 0, le_refl 0, le_refl 0, le_refl 0, le_refl 0, le_refl 0,
    le_refl 0⟩

theorem lastResortResponse_monetary_nonneg :
    monetaryFieldsNonneg lastResortResponse := by
  simp only [monetaryFieldsNonneg, lastResortResponse]
  refine ⟨?_, ?_, ?_, ?_, ?_, ?_, ?_, ?_, ?_, ?_, ?_, ?_, ?_, ?_, ?_, ?_, ?_, ?_, ?_, ?_,
    ?_, ?_, ?_, ?_⟩
  all_goals norm_num

/-- C7: for every store state and every request — valid or not — every
monetary field of the returned response record (totals, clinical and
non-clinical costs, all local and USD breakdown entries, insurance_pays and
patient_out_of_pocket) is nonnegative, on all three degradation layers. -/
theorem response_monetary_fields_nonneg (db : Db) (req : CostCalculationRequest) :
    monetaryFieldsNonneg (calculate_treatment_cost db req) := by
  rcases calculate_cases db req with h | h | h
  · rw [h]; exact mainResponse_monetary_nonneg db req
  · rw [h]; exact fallbackResponse_monetary_nonneg req
  · rw [h]; exact lastResortResponse_monetary_nonneg

theorem round2_zero : round2 0 = 0 :=
  round2_eq_self_of_cents (n := 0) (by norm_num)

-- ---------------------------------------------------------------------------
-- Membership in the final assumptions list
-- ---------------------------------------------------------------------------

theorem mem_insertIdx_of_mem {α : Type} {a b : α} {l : List α} {n : ℕ}
    (hn : n ≤ l.length) (h : a ∈ l) : a ∈ l.insertIdx n b :=
  (List.mem_insertIdx hn).mpr (Or.inr h)

theorem assumptionsBeforeCurrency_ne_nil (db : Db) (req : CostCalculationRequest) :
    1 ≤ (assumptionsBeforeCurrency db req).length := by
  unfold assumptionsBeforeCurrency
  simp only [List.length_append]
  have h : 0 < (if req.has_insurance then
      [coverageAssumption db req,
       Assumption.deductibleInfo (normalizeInputs req).deductible
         ((resolvedCountry db req).currency.getD "USD") (normalizeInputs req).copay_percent]
     else [Assumption.noInsurance]).length := by
    split <;> simp
  omega

theorem mem_assumptionsWithCurrency_of_mem (db : Db) (req : CostCalculationRequest)
    {a : Assumption} (h : a ∈ assumptionsBeforeCurrency db req) :
    a ∈ assumptionsWithCurrency db req := by
  unfold assumptionsWithCurrency
  split
  · exact mem_insertIdx_of_mem (Nat.zero_le _) h
  · refine mem_insertIdx_of_mem ?_ (mem_insertIdx_of_mem (Nat.zero_le _) h)
    rw [List.length_insertIdx 0 _ (Nat.zero_le _)]
    have := assumptionsBeforeCurrency_ne_nil db req
    omega

theorem mem_assumptionsFinal_of_mem (db : Db) (req : CostCalculationRequest)
    {a : Assumption} (h : a ∈ assumptionsBeforeCurrency db req) :
    a ∈ assumptionsFinal db req := by
  unfold assumptionsFinal
  have h1 : a ∈ assumptionsWithCurrency db req :=
    mem_assumptionsWithCurrency_of_mem db req h
  have h2 : a ∈ (assumptionsWithCurrency db req).insertIdx
      ((assumptionsWithCurrency db req).length - 3)
      (Assumption.hospitalTierInfo (hospitalTierNameOf db req) (tierMultiplier db req)) :=
    mem_insertIdx_of_mem (Nat.sub_le _ _) h1
  exact List.mem_append_left _ (List.mem_append_left _ (List.mem_append_left _
    (List.mem_append_left _ (List.mem_append_left _ h2))))

theorem confidenceInfo_mem_assumptionsFinal (db : Db) (req : CostCalculationRequest) :
    Assumption.confidenceInfo (confidenceAt394 db req) ∈ assumptionsFinal db req := by
  unfold assumptionsFinal
  refine List.mem_append_left _ (List.mem_append_left _ (List.mem_append_left _
    (List.mem_append_left _ (List.mem_append_right _ ?_))))
  simp

-- ---------------------------------------------------------------------------
-- C10: a stored tier multiplier equal to the built-in default is discarded
-- ---------------------------------------------------------------------------

/-- C10: when the store returns a hospital-tier record whose multiplier
normalizes to exactly 1.0 (the built-in default), the engine discards it and
substitutes the compiled-in multiplier for the tier id (tier_1 ↦ 1.3); a
stored multiplier is used as-is only when it differs from 1.0. -/
theorem stored_tier_multiplier_one_discarded (db : Db) (req : CostCalculationRequest)
    (doc : HospitalTierDoc)
    (h : db.hospital_tiers (hospitalTierIdOf req) = DbResult.found doc) :
    (normalize_number doc.multiplier DEFAULT_HOSPITAL_TIER_MULTIPLIER 0 = 1 →
      tierMultiplier db req =
        HOSPITAL_TIER_MULTIPLIERS (hospitalTierIdOf req) DEFAULT_HOSPITAL_TIER_MULTIPLIER) ∧
    (normalize_number doc.multiplier DEFAULT_HOSPITAL_TIER_MULTIPLIER 0 ≠ 1 →
      tierMultiplier db req =
        normalize_number doc.multiplier DEFAULT_HOSPITAL_TIER_MULTIPLIER 0) ∧
    HOSPITAL_TIER_MULTIPLIERS "tier_1" DEFAULT_HOSPITAL_TIER_MULTIPLIER = 13/10 := by
  have hf : tierFetched db req =
      (normalize_number doc.multiplier DEFAULT_HOSPITAL_TIER_MULTIPLIER 0,
       doc.name.getD "Tier 3 - Regional Private Hospital") := by
    unfold tierFetched
    rw [h]
    rfl
  refine ⟨?_, ?_, by norm_num [HOSPITAL_TIER_MULTIPLIERS, DEFAULT_HOSPITAL_TIER_MULTIPLIER]⟩
  · intro h1
    unfold tierMultiplier
    rw [hf]
    simp only [DEFAULT_HOSPITAL_TIER_MULTIPLIER] at h1 ⊢
    simp [h1]
  · intro h1
    unfold tierMultiplier
    rw [hf]
    simp only [DEFAULT_HOSPITAL_TIER_MULTIPLIER] at h1 ⊢
    simp [h1]

/-- Store and request for the C10 witness: the stored record for tier_1
carries multiplier 1.0. -/
def dbTierOne : Db :=
  { dbEmpty with
    hospital_tiers := fun k =>
      if k = "tier_1" then DbResult.found { multiplier := some (PyVal.rat 1) }
      else DbResult.missing }

def reqTierOne : CostCalculationRequest :=
  { reqMinUsa with country := "india", hospital_tier := "tier_1" }

theorem stored_tier_multiplier_one_discarded_witness :
    tierMultiplier dbTierOne reqTierOne = 13/10 := by
  have h := (stored_tier_multiplier_one_discarded dbTierOne reqTierOne
      { multiplier := some (PyVal.rat 1) } (by with_unfolding_all rfl)).1
    (by with_unfolding_all decide)
  rw [h]
  with_unfolding_all decide

-- ---------------------------------------------------------------------------
-- C2: the insurance-netting formula
-- ---------------------------------------------------------------------------

/-- C2: on the successful main path, with insurance the insurer-paid amount is
`max(0, inpCov*(surgery+transplant) + outCov*(radiation+diagnostics) +
drugCov*chemotherapy − deductible) * (1 − copay/100)` (rounded to 2 dp in the
response), computed from the response's rounded breakdown entries, with the
coverage fractions resolved custom → insurer record → compiled-in default
(80/50/70) by `coverageTriple`; without insurance, `insurance_pays` is 0 and
the "No insurance coverage" assumption is recorded. The deductible and co-pay
are the normalized inputs (negative/NaN deductible ↦ 0; co-pay clamped to
[0,50]). -/
theorem insurance_netting_formula (db : Db) (req : CostCalculationRequest)
    (resp : CostCalculationResponse) (h : calcMain db req = Except.ok resp) :
    (req.has_insurance = true →
      resp.insurance_pays = round2 (max 0
        ((resp.breakdown.surgery + resp.breakdown.transplant) * (coverageTriple db req).1 +
         (resp.breakdown.radiation + resp.breakdown.diagnostics) * (coverageTriple db req).2.1 +
         resp.breakdown.chemotherapy * (coverageTriple db req).2.2 -
         normalize_number (some req.deductible) 0 0) *
        (1 - clamp_number (normalize_number (some req.copay_percent) 20 0) 0 50 / 100))) ∧
    (req.has_insurance = false →
      resp.insurance_pays = 0 ∧ Assumption.noInsurance ∈ resp.assumptions) := by
  have hr : resp = mainResponse db req := calcMain_ok_val db req resp h
  subst hr
  constructor
  · intro hins
    show round2 (insurancePaysRaw db req) = _
    unfold insurancePaysRaw
    rw [if_pos hins]
    rfl
  · intro hins
    constructor
    · show round2 (insurancePaysRaw db req) = 0
      unfold insurancePaysRaw
      rw [if_neg (by simp [hins]), round2_zero]
    · show Assumption.noInsurance ∈ assumptionsFinal db req
      apply mem_assumptionsFinal_of_mem
      unfold assumptionsBeforeCurrency
      refine List.mem_append_right _ ?_
      rw [if_neg (by simp [hins])]
      exact List.mem_singleton.mpr rfl

theorem insurance_netting_formula_witness :
    (calculate_treatment_cost dbEmpty reqIndiaIns).insurance_pays = round2 (max 0
      (((calculate_treatment_cost dbEmpty reqIndiaIns).breakdown.surgery +
        (calculate_treatment_cost dbEmpty reqIndiaIns).breakdown.transplant) *
          (coverageTriple dbEmpty reqIndiaIns).1 +
       ((calculate_treatment_cost dbEmpty reqIndiaIns).breakdown.radiation +
        (calculate_treatment_cost dbEmpty reqIndiaIns).breakdown.diagnostics) *
          (coverageTriple dbEmpty reqIndiaIns).2.1 +
       (calculate_treatment_cost dbEmpty reqIndiaIns).breakdown.chemotherapy *
          (coverageTriple dbEmpty reqIndiaIns).2.2 -
       normalize_number (some reqIndiaIns.deductible) 0 0) *
      (1 - clamp_number (normalize_number (some reqIndiaIns.copay_percent) 20 0) 0 50 / 100)) :=
  (insurance_netting_formula dbEmpty reqIndiaIns
      (calculate_treatment_cost dbEmpty reqIndiaIns)
      (by with_unfolding_all rfl)).1 (by rfl)

-- ---------------------------------------------------------------------------
-- C8: unknown country id falls back to the india tables
-- ---------------------------------------------------------------------------

/-- C8: when the country id is not a compiled-in country and the store yields
no records for it, a response is still produced by the main path (no
exception), the base-cost and accommodation tables used are india's (the
designated fallback country), an assumption noting default-data usage is
appended, and the recorded confidence level is exactly "Medium". -/
theorem unknown_country_falls_back_to_india (db : Db) (req : CostCalculationRequest)
    (h1 : COUNTRY_DATA (countryIdOf req) = none)
    (h2 : (db.countries (countryIdOf req)).toOption = none)
    (h3 : (db.base_costs (countryIdOf req)).toOption = none)
    (h4 : (db.accommodation_costs (countryIdOf req)).toOption = none) :
    calcMain db req = Except.ok (calculate_treatment_cost db req) ∧
    resolvedBaseCosts db req = baseCostsToDoc countryIndia.base_costs ∧
    resolvedAccommodation db req =
      { budget := some (PyVal.rat countryIndia.accommodation.budget)
        mid := some (PyVal.rat countryIndia.accommodation.mid)
        premium := some (PyVal.rat countryIndia.accommodation.premium) } ∧
    Assumption.usingDefaultCountry (countryIdOf req) ∈
      (calculate_treatment_cost db req).assumptions ∧
    Assumption.confidenceInfo "Medium" ∈ (calculate_treatment_cost db req).assumptions := by
  have hg : get_country_data (countryIdOf req) = countryIndia := by
    unfold get_country_data
    split
    · rfl
    · rw [h1]; rfl
  have hrc : resolvedCountry db req = countryDataToDict countryIndia := by
    unfold resolvedCountry
    rw [h2, hg]
  have hcode : currencyCodeOf db req = "INR" := by
    unfold currencyCodeOf
    rw [hrc]
    rfl
  have hrate : exchangeRate db req = 89899376/1000000 := by
    unfold exchangeRate
    rw [hrc]
    show max 0 countryIndia.exchange_rate_to_usd = 89899376/1000000
    rw [max_eq_right (by norm_num [countryIndia])]
    norm_num [countryIndia]
  have hmain : calcMain db req = Except.ok (mainResponse db req) := by
    unfold calcMain
    rw [if_neg (by rw [hcode]; decide), if_neg (by rw [hrate]; norm_num)]
  have hcalc : calculate_treatment_cost db req = mainResponse db req := by
    unfold calculate_treatment_cost
    rw [hmain]
  have hcd : countryDefaulted db req = true := by
    unfold countryDefaulted
    rw [h2]
    rfl
  have hbd : baseCostsDefaulted db req = true := by
    unfold baseCostsDefaulted
    rw [h3]
    rfl
  have hmem1 : Assumption.usingDefaultCountry (countryIdOf req) ∈
      assumptionsBeforeCurrency db req := by
    unfold assumptionsBeforeCurrency
    refine List.mem_append_left _ (List.mem_append_left _ (List.mem_append_left _
      (List.mem_append_left _ (List.mem_append_left _ (List.mem_append_left _
      (List.mem_append_left _ (List.mem_append_left _ (List.mem_append_left _ ?_))))))))
    rw [hcd]
    simp
  have hconf : confidenceAt394 db req = "Medium" := by
    unfold confidenceAt394
    rw [hcd, hbd]
    cases hu : usedDefaultCoverage db req <;> simp
  refine ⟨by rw [hcalc]; exact hmain, ?_, ?_, ?_, ?_⟩
  · unfold resolvedBaseCosts
    rw [h3]
    have hgb : get_base_costs (countryIdOf req) = countryIndia.base_costs := by
      unfold get_base_costs
      split
      · rfl
      · rw [h1]; rfl
    rw [hgb]
  · unfold resolvedAccommodation
    rw [h4]
    have hga : get_accommodation_costs (countryIdOf req) = countryIndia.accommodation := by
      unfold get_accommodation_costs
      split
      · rfl
      · rw [h1]; rfl
    rw [hga]
  · rw [hcalc]
    exact mem_assumptionsFinal_of_mem db req hmem1
  · rw [hcalc]
    have := confidenceInfo_mem_assumptionsFinal db req
    rw [hconf] at this
    exact this

def reqAtlantis : CostCalculationRequest :=
  { reqMinUsa with country := "atlantis" }

theorem unknown_country_falls_back_to_india_witness :
    calcMain dbEmpty reqAtlantis = Except.ok (calculate_treatment_cost dbEmpty reqAtlantis) ∧
    resolvedBaseCosts dbEmpty reqAtlantis = baseCostsToDoc countryIndia.base_costs ∧
    resolvedAccommodation dbEmpty reqAtlantis =
      { budget := some (PyVal.rat countryIndia.accommodation.budget)
        mid := some (PyVal.rat countryIndia.accommodation.mid)
        premium := some (PyVal.rat countryIndia.accommodation.premium) } ∧
    Assumption.usingDefaultCountry (countryIdOf reqAtlantis) ∈
      (calculate_treatment_cost dbEmpty reqAtlantis).assumptions ∧
    Assumption.confidenceInfo "Medium" ∈
      (calculate_treatment_cost dbEmpty reqAtlantis).assumptions :=
  unknown_country_falls_back_to_india dbEmpty reqAtlantis
    (by with_unfolding_all rfl) (by rfl) (by rfl) (by rfl)

-- ---------------------------------------------------------------------------
-- C3: unknown enum keys degrade to a default instead of raising
-- ---------------------------------------------------------------------------

def reqUnknownDrug : CostCalculationRequest :=
  { reqMinUsa with country := "india", include_chemo := true, drug_access := "magic" }

/-- C3 counterexample: for the unknown drugAccess key "magic" the multiplier
applied to the chemotherapy cost is the generics default 0.6, not 1.0: with
india base costs and 6 standard cycles the chemotherapy entry is 198000, not
the 330000 the claim's 1.0 multiplier would give. -/
theorem unknown_drug_access_counterexample :
    DRUG_ACCESS_MULTIPLIERS "magic" = 6/10 ∧
    (calculate_treatment_cost dbEmpty reqUnknownDrug).breakdown.chemotherapy = 198000 ∧
    (calculate_treatment_cost dbEmpty reqUnknownDrug).breakdown.chemotherapy ≠
      round2 (50000 * 1 * 1 * (1 + 1/10) * 6 * 1) := by
  have e1 : (calculate_treatment_cost dbEmpty reqUnknownDrug).breakdown.chemotherapy =
      198000 := by with_unfolding_all rfl
  have e2 : round2 (50000 * 1 * 1 * (1 + 1/10) * 6 * 1) = (330000 : ℚ) := by
    with_unfolding_all rfl
  refine ⟨by with_unfolding_all rfl, e1, ?_⟩
  rw [e1, e2]
  norm_num

/-- C3 amended: for every key outside the known value sets, each enumerated
multiplier lookup falls back silently to its compiled-in miss default instead
of raising: 1.0 for roomCategory, regimenType, radiationTechnique,
transplantType and travelType, 0.6 (the generics bucket) for drugAccess, and
the daily_cab rate 30 for localTransport. -/
theorem unknown_enum_keys_fallback (k : String)
    (h : k ∉ ["general", "semi_private", "private", "deluxe", "standard_chemo", "targeted",
      "immunotherapy", "oral_tki", "combination", "originator", "generics", "biosimilars",
      "2d", "3d_crt", "imrt", "vmat", "sbrt", "proton", "autologous", "allogeneic",
      "economy", "premium", "business", "daily_cab", "public", "hospital_shuttle"]) :
    ROOM_CATEGORY_MULTIPLIERS k = 1 ∧ REGIMEN_MULTIPLIERS k = 1 ∧
    DRUG_ACCESS_MULTIPLIERS k = 6/10 ∧ RADIATION_TECHNIQUE_MULTIPLIERS k = 1 ∧
    TRANSPLANT_TYPE_MULTIPLIERS k = 1 ∧ TRAVEL_TYPE_MULTIPLIERS k = 1 ∧
    LOCAL_TRANSPORT_COSTS k = 30 := by
  simp only [List.mem_cons, List.not_mem_nil, or_false, not_or] at h
  obtain ⟨h1, h2, h3, h4, h5, h6, h7, h8, h9, h10, h11, h12, h13, h14, h15, h16, h17, h18,
    h19, h20, h21, h22, h23, h24, h25, h26⟩ := h
  refine ⟨?_, ?_, ?_, ?_, ?_, ?_, ?_⟩
  · simp [ROOM_CATEGORY_MULTIPLIERS, h1, h2, h3, h4]
  · simp [REGIMEN_MULTIPLIERS, h5, h6, h7, h8, h9]
  · simp [DRUG_ACCESS_MULTIPLIERS, h10, h11, h12]
  · simp [RADIATION_TECHNIQUE_MULTIPLIERS, h13, h14, h15, h16, h17, h18]
  · simp [TRANSPLANT_TYPE_MULTIPLIERS, h19, h20]
  · simp [TRAVEL_TYPE_MULTIPLIERS, h21, h22, h23]
  · simp [LOCAL_TRANSPORT_COSTS, h24, h25, h26]

theorem unknown_enum_keys_fallback_witness :
    ROOM_CATEGORY_MULTIPLIERS "magic" = 1 ∧ REGIMEN_MULTIPLIERS "magic" = 1 ∧
    DRUG_ACCESS_MULTIPLIERS "magic" = 6/10 ∧ RADIATION_TECHNIQUE_MULTIPLIERS "magic" = 1 ∧
    TRANSPLANT_TYPE_MULTIPLIERS "magic" = 1 ∧ TRAVEL_TYPE_MULTIPLIERS "magic" = 1 ∧
    LOCAL_TRANSPORT_COSTS "magic" = 30 :=
  unknown_enum_keys_fallback "magic" (by decide)

-- ---------------------------------------------------------------------------
-- C5: totals are rounded sums of UNROUNDED modality costs
-- ---------------------------------------------------------------------------

theorem round2_eq_self_of_den {q : ℚ} (h : (q * 100).den = 1) : round2 q = q :=
  round2_eq_self_of_cents (Rat.coe_int_num_of_den_eq_one h).symm

theorem den_cents_add {a b : ℚ} (ha : (a * 100).den = 1) (hb : (b * 100).den = 1) :
    ((a + b) * 100).den = 1 := by
  have h1 : ((a * 100).num : ℚ) = a * 100 := Rat.coe_int_num_of_den_eq_one ha
  have h2 : ((b * 100).num : ℚ) = b * 100 := Rat.coe_int_num_of_den_eq_one hb
  have h3 : (a + b) * 100 = (((a * 100).num + (b * 100).num : ℤ) : ℚ) := by
    push_cast
    rw [h1, h2]
    ring
  rw [h3]
  exact Rat.den_intCast _

/-- The store state and request for the C5 counterexample: a stored base-cost
record with sub-cent precision (surgery 100.004, transplant 200.004). -/
def dbSubCent : Db :=
  { dbEmpty with
    base_costs := fun _ => DbResult.found
      { surgery := some (PyVal.rat (100 + 4/1000))
        transplant := some (PyVal.rat (200 + 4/1000)) } }

def reqSubCent : CostCalculationRequest :=
  { reqMinUsa with include_surgery := true, include_transplant := true }

/-- C5 counterexample: with stored base costs of sub-cent precision the
response's `clinical_cost` (300.01: the rounded sum of the unrounded modality
costs 100.004 + 200.004) differs from the sum of the five rounded breakdown
entries as returned (100.00 + 200.00 = 300.00). -/
theorem clinical_cost_not_sum_of_rounded_entries :
    (calculate_treatment_cost dbSubCent reqSubCent).clinical_cost = 30001/100 ∧
    (calculate_treatment_cost dbSubCent reqSubCent).breakdown.surgery +
      (calculate_treatment_cost dbSubCent reqSubCent).breakdown.chemotherapy +
      (calculate_treatment_cost dbSubCent reqSubCent).breakdown.radiation +
      (calculate_treatment_cost dbSubCent reqSubCent).breakdown.transplant +
      (calculate_treatment_cost dbSubCent reqSubCent).breakdown.diagnostics = 300 ∧
    (calculate_treatment_cost dbSubCent reqSubCent).clinical_cost ≠
      (calculate_treatment_cost dbSubCent reqSubCent).breakdown.surgery +
      (calculate_treatment_cost dbSubCent reqSubCent).breakdown.chemotherapy +
      (calculate_treatment_cost dbSubCent reqSubCent).breakdown.radiation +
      (calculate_treatment_cost dbSubCent reqSubCent).breakdown.transplant +
      (calculate_treatment_cost dbSubCent reqSubCent).breakdown.diagnostics := by
  have e1 : (calculate_treatment_cost dbSubCent reqSubCent).clinical_cost = 30001/100 := by
    with_unfolding_all rfl
  have e2 : (calculate_treatment_cost dbSubCent reqSubCent).breakdown.surgery +
      (calculate_treatment_cost dbSubCent reqSubCent).breakdown.chemotherapy +
      (calculate_treatment_cost dbSubCent reqSubCent).breakdown.radiation +
      (calculate_treatment_cost dbSubCent reqSubCent).breakdown.transplant +
      (calculate_treatment_cost dbSubCent reqSubCent).breakdown.diagnostics = 300 := by
    with_unfolding_all rfl
  refine ⟨e1, e2, ?_⟩
  rw [e1, e2]
  norm_num

/-- C5 amended: `clinical_cost` is the 2-dp rounding of the exact sum of the
five UNROUNDED modality costs and `non_clinical_cost` of the four UNROUNDED
tourism costs (the code accumulates unrounded values and rounds once at the
end); these equal the sums of the rounded breakdown entries exactly when every
unrounded cost is a whole number of cents (as with the compiled-in integer
tables), but not in general. -/
theorem clinical_cost_rounded_raw_sums (db : Db) (req : CostCalculationRequest)
    (resp : CostCalculationResponse) (h : calcMain db req = Except.ok resp) :
    resp.clinical_cost = round2 (surgeryRawCost db req + chemoRawCost db req +
      radiationRawCost db req + transplantRawCost db req + diagnosticsRawCost db req) ∧
    resp.non_clinical_cost = round2 (accommodationRawCost db req + travelRawCost db req +
      localTransportRawCost db req + foodRawCost db req) ∧
    ((surgeryRawCost db req * 100).den = 1 → (chemoRawCost db req * 100).den = 1 →
     (radiationRawCost db req * 100).den = 1 → (transplantRawCost db req * 100).den = 1 →
     (diagnosticsRawCost db req * 100).den = 1 →
      resp.clinical_cost = resp.breakdown.surgery + resp.breakdown.chemotherapy +
        resp.breakdown.radiation + resp.breakdown.transplant + resp.breakdown.diagnostics) ∧
    ((accommodationRawCost db req * 100).den = 1 → (travelRawCost db req * 100).den = 1 →
     (localTransportRawCost db req * 100).den = 1 → (foodRawCost db req * 100).den = 1 →
      resp.non_clinical_cost = resp.breakdown.accommodation + resp.breakdown.travel +
        resp.breakdown.local_transport + resp.breakdown.food) := by
  have hr : resp = mainResponse db req := calcMain_ok_val db req resp h
  subst hr
  refine ⟨rfl, rfl, ?_, ?_⟩
  · intro e1 e2 e3 e4 e5
    have hsum : ((surgeryRawCost db req + chemoRawCost db req + radiationRawCost db req +
        transplantRawCost db req + diagnosticsRawCost db req) * 100).den = 1 :=
      den_cents_add (den_cents_add (den_cents_add (den_cents_add e1 e2) e3) e4) e5
    show round2 (clinicalCostRaw db req) =
      round2 (surgeryRawCost db req) + round2 (chemoRawCost db req) +
      round2 (radiationRawCost db req) + round2 (transplantRawCost db req) +
      round2 (diagnosticsRawCost db req)
    unfold clinicalCostRaw
    rw [round2_eq_self_of_den hsum, round2_eq_self_of_den e1, round2_eq_self_of_den e2,
      round2_eq_self_of_den e3, round2_eq_self_of_den e4, round2_eq_self_of_den e5]
  · intro e1 e2 e3 e4
    have hsum : ((accommodationRawCost db req + travelRawCost db req +
        localTransportRawCost db req + foodRawCost db req) * 100).den = 1 :=
      den_cents_add (den_cents_add (den_cents_add e1 e2) e3) e4
    show round2 (nonClinicalCostRaw db req) =
      round2 (accommodationRawCost db req) + round2 (travelRawCost db req) +
      round2 (localTransportRawCost db req) + round2 (foodRawCost db req)
    unfold nonClinicalCostRaw
    rw [round2_eq_self_of_den hsum, round2_eq_self_of_den e1, round2_eq_self_of_den e2,
      round2_eq_self_of_den e3, round2_eq_self_of_den e4]

theorem clinical_cost_rounded_raw_sums_witness :
    (calculate_treatment_cost dbEmpty reqIndiaIns).clinical_cost =
      round2 (surgeryRawCost dbEmpty reqIndiaIns + chemoRawCost dbEmpty reqIndiaIns +
        radiationRawCost dbEmpty reqIndiaIns + transplantRawCost dbEmpty reqIndiaIns +
        diagnosticsRawCost dbEmpty reqIndiaIns) ∧
    (calculate_treatment_cost dbEmpty reqIndiaIns).clinical_cost =
      (calculate_treatment_cost dbEmpty reqIndiaIns).breakdown.surgery +
      (calculate_treatment_cost dbEmpty reqIndiaIns).breakdown.chemotherapy +
      (calculate_treatment_cost dbEmpty reqIndiaIns).breakdown.radiation +
      (calculate_treatment_cost dbEmpty reqIndiaIns).breakdown.transplant +
      (calculate_treatment_cost dbEmpty reqIndiaIns).breakdown.diagnostics := by
  have h := clinical_cost_rounded_raw_sums dbEmpty reqIndiaIns
    (calculate_treatment_cost dbEmpty reqIndiaIns) (by with_unfolding_all rfl)
  exact ⟨h.1, h.2.2.1 (by with_unfolding_all rfl) (by with_unfolding_all rfl)
    (by with_unfolding_all rfl) (by with_unfolding_all rfl) (by with_unfolding_all rfl)⟩

-- ---------------------------------------------------------------------------
-- C6: currency conversion contract
-- ---------------------------------------------------------------------------

theorem convertUsd_of_usd {code : String} {rate x : ℚ} (h : code = "USD") :
    convertUsd code rate x = x := by
  unfold convertUsd
  rw [if_pos h]

theorem convertUsd_of_ne {code : String} {rate x : ℚ} (h : ¬ code = "USD") :
    convertUsd code rate x = x / rate := by
  unfold convertUsd
  rw [if_neg h]

theorem round2_idem (q : ℚ) : round2 (round2 q) = round2 q := by
  refine round2_eq_self_of_cents (n := roundHalfEven (q * 100)) ?_
  unfold round2
  field_simp

set_option maxHeartbeats 2000000 in
/-- A compiled-in country whose currency code is USD has exchange rate
exactly 1 (only the usa entry qualifies). -/
theorem compiled_currency_usd_rate_one (s : String)
    (h : (get_country_data s).currency_code = "USD") :
    (get_country_data s).exchange_rate_to_usd = 1 := by
  unfold get_country_data COUNTRY_DATA at h ⊢
  split_ifs at h ⊢ <;>
    simp_all [countryIndia, countryUsa, countrySingapore, countryJapan, countryFrance,
      countryTurkey, countryThailand, countryCanada, countryNorway, DEFAULT_COUNTRY]

/-- C6 counterexample: a store-provided country record may carry
`currency_code = "USD"` together with `exchange_rate_to_usd = 2`, so the
response has currency USD but an exchange rate different from 1.0. -/
def dbUsdTwo : Db :=
  { dbEmpty with
    countries := fun _ => DbResult.found
      { currency_code := some "USD", exchange_rate_to_usd := some (PyVal.rat 2) } }

theorem usd_rate_not_one_counterexample :
    (calculate_treatment_cost dbUsdTwo reqMinUsa).currency_code = "USD" ∧
    (calculate_treatment_cost dbUsdTwo reqMinUsa).exchange_rate_to_usd = 2 ∧
    (calculate_treatment_cost dbUsdTwo reqMinUsa).exchange_rate_to_usd ≠ 1 := by
  have e1 : (calculate_treatment_cost dbUsdTwo reqMinUsa).currency_code = "USD" := by
    with_unfolding_all rfl
  have e2 : (calculate_treatment_cost dbUsdTwo reqMinUsa).exchange_rate_to_usd = 2 := by
    with_unfolding_all rfl
  refine ⟨e1, e2, ?_⟩
  rw [e2]
  norm_num

/-- C6 amended: on the successful main path, when the resolved currency code
is USD every USD figure equals its local counterpart (breakdown included) and
the reported exchange rate equals 1.0 whenever the country was resolved from
the compiled-in defaults (a store record may carry another value); when the
code is not USD the rate is nonzero and every USD figure is the 2-dp rounding
of the corresponding local value divided by the rate — raw totals for the
total fields, the ROUNDED breakdown entries for `breakdown_usd`. -/
theorem currency_conversion_contract (db : Db) (req : CostCalculationRequest)
    (resp : CostCalculationResponse) (h : calcMain db req = Except.ok resp) :
    (resp.currency_code = "USD" →
      resp.total_cost_usd = resp.total_cost_local ∧
      resp.clinical_cost_usd = resp.clinical_cost ∧
      resp.non_clinical_cost_usd = resp.non_clinical_cost ∧
      resp.insurance_pays_usd = resp.insurance_pays ∧
      resp.patient_out_of_pocket_usd = resp.patient_out_of_pocket ∧
      resp.breakdown_usd = resp.breakdown ∧
      (countryDefaulted db req = true → resp.exchange_rate_to_usd = 1)) ∧
    (resp.currency_code ≠ "USD" →
      resp.exchange_rate_to_usd ≠ 0 ∧
      resp.total_cost_usd = round2 (totalBeforeInsurance db req / resp.exchange_rate_to_usd) ∧
      resp.clinical_cost_usd = round2 (clinicalCostRaw db req / resp.exchange_rate_to_usd) ∧
      resp.non_clinical_cost_usd =
        round2 (nonClinicalCostRaw db req / resp.exchange_rate_to_usd) ∧
      resp.insurance_pays_usd = round2 (insurancePaysRaw db req / resp.exchange_rate_to_usd) ∧
      resp.patient_out_of_pocket_usd =
        round2 (patientOutOfPocketRaw db req / resp.exchange_rate_to_usd) ∧
      resp.breakdown_usd.surgery =
        round2 (resp.breakdown.surgery / resp.exchange_rate_to_usd) ∧
      resp.breakdown_usd.chemotherapy =
        round2 (resp.breakdown.chemotherapy / resp.exchange_rate_to_usd) ∧
      resp.breakdown_usd.radiation =
        round2 (resp.breakdown.radiation / resp.exchange_rate_to_usd) ∧
      resp.breakdown_usd.transplant =
        round2 (resp.breakdown.transplant / resp.exchange_rate_to_usd) ∧
      resp.breakdown_usd.diagnostics =
        round2 (resp.breakdown.diagnostics / resp.exchange_rate_to_usd) ∧
      resp.breakdown_usd.accommodation =
        round2 (resp.breakdown.accommodation / resp.exchange_rate_to_usd) ∧
      resp.breakdown_usd.travel =
        round2 (resp.breakdown.travel / resp.exchange_rate_to_usd) ∧
      resp.breakdown_usd.local_transport =
        round2 (resp.breakdown.local_transport / resp.exchange_rate_to_usd) ∧
      resp.breakdown_usd.food =
        round2 (resp.breakdown.food / resp.exchange_rate_to_usd)) := by
  have hrv : resp = mainResponse db req := calcMain_ok_val db req resp h
  subst hrv
  constructor
  · intro hcode
    have hcc : currencyCodeOf db req = "USD" := hcode
    refine ⟨?_, ?_, ?_, ?_, ?_, ?_, ?_⟩
    · show round2 (convertUsd (currencyCodeOf db req) (exchangeRate db req)
        (totalBeforeInsurance db req)) = round2 (totalBeforeInsurance db req)
      rw [convertUsd_of_usd hcc]
    · show round2 (convertUsd (currencyCodeOf db req) (exchangeRate db req)
        (clinicalCostRaw db req)) = round2 (clinicalCostRaw db req)
      rw [convertUsd_of_usd hcc]
    · show round2 (convertUsd (currencyCodeOf db req) (exchangeRate db req)
        (nonClinicalCostRaw db req)) = round2 (nonClinicalCostRaw db req)
      rw [convertUsd_of_usd hcc]
    · show round2 (convertUsd (currencyCodeOf db req) (exchangeRate db req)
        (insurancePaysRaw db req)) = round2 (insurancePaysRaw db req)
      rw [convertUsd_of_usd hcc]
    · show round2 (convertUsd (currencyCodeOf db req) (exchangeRate db req)
        (patientOutOfPocketRaw db req)) = round2 (patientOutOfPocketRaw db req)
      rw [convertUsd_of_usd hcc]
    · show breakdownUsd db req = breakdownLocal db req
      unfold breakdownUsd
      simp only [convertUsd_of_usd hcc, breakdownLocal, round2_idem]
    · intro hdef
      have hnone : (db.countries (countryIdOf req)).toOption = none := by
        unfold countryDefaulted at hdef
        exact Option.isNone_iff_eq_none.mp hdef
      have hrc : resolvedCountry db req =
          countryDataToDict (get_country_data (countryIdOf req)) := by
        unfold resolvedCountry
        rw [hnone]
      have hcu : (get_country_data (countryIdOf req)).currency_code = "USD" := by
        have := hcc
        unfold currencyCodeOf at this
        rw [hrc] at this
        exact this
      have hone := compiled_currency_usd_rate_one (countryIdOf req) hcu
      show exchangeRate db req = 1
      unfold exchangeRate
      rw [hrc]
      show max 0 (get_country_data (countryIdOf req)).exchange_rate_to_usd = 1
      rw [hone]
      norm_num
  · intro hcode
    have hcc : ¬ currencyCodeOf db req = "USD" := hcode
    have hr0 : ¬ exchangeRate db req = 0 := by
      intro h0
      unfold calcMain at h
      rw [if_neg hcc, if_pos h0] at h
      exact Except.noConfusion h
    refine ⟨hr0, ?_, ?_, ?_, ?_, ?_, ?_, ?_, ?_, ?_, ?_, ?_, ?_, ?_, ?_⟩
    · show round2 (convertUsd (currencyCodeOf db req) (exchangeRate db req)
        (totalBeforeInsurance db req)) = round2 (totalBeforeInsurance db req / exchangeRate db req)
      rw [convertUsd_of_ne hcc]
    · show round2 (convertUsd (currencyCodeOf db req) (exchangeRate db req)
        (clinicalCostRaw db req)) = round2 (clinicalCostRaw db req / exchangeRate db req)
      rw [convertUsd_of_ne hcc]
    · show round2 (convertUsd (currencyCodeOf db req) (exchangeRate db req)
        (nonClinicalCostRaw db req)) = round2 (nonClinicalCostRaw db req / exchangeRate db req)
      rw [convertUsd_of_ne hcc]
    · show round2 (convertUsd (currencyCodeOf db req) (exchangeRate db req)
        (insurancePaysRaw db req)) = round2 (insurancePaysRaw db req / exchangeRate db req)
      rw [convertUsd_of_ne hcc]
    · show round2 (convertUsd (currencyCodeOf db req) (exchangeRate db req)
        (patientOutOfPocketRaw db req)) =
          round2 (patientOutOfPocketRaw db req / exchangeRate db req)
      rw [convertUsd_of_ne hcc]
    · show round2 (convertUsd (currencyCodeOf db req) (exchangeRate db req)
        (breakdownLocal db req).surgery) =
          round2 ((breakdownLocal db req).surgery / exchangeRate db req)
      rw [convertUsd_of_ne hcc]
    · show round2 (convertUsd (currencyCodeOf db req) (exchangeRate db req)
        (breakdownLocal db req).chemotherapy) =
          round2 ((breakdownLocal db req).chemotherapy / exchangeRate db req)
      rw [convertUsd_of_ne hcc]
    · show round2 (convertUsd (currencyCodeOf db req) (exchangeRate db req)
        (breakdownLocal db req).radiation) =
          round2 ((breakdownLocal db req).radiation / exchangeRate db req)
      rw [convertUsd_of_ne hcc]
    · show round2 (convertUsd (currencyCodeOf db req) (exchangeRate db req)
        (breakdownLocal db req).transplant) =
          round2 ((breakdownLocal db req).transplant / exchangeRate db req)
      rw [convertUsd_of_ne hcc]
    · show round2 (convertUsd (currencyCodeOf db req) (exchangeRate db req)
        (breakdownLocal db req).diagnostics) =
          round2 ((breakdownLocal db req).diagnostics / exchangeRate db req)
      rw [convertUsd_of_ne hcc]
    · show round2 (convertUsd (currencyCodeOf db req) (exchangeRate db req)
        (breakdownLocal db req).accommodation) =
          round2 ((breakdownLocal db req).accommodation / exchangeRate db req)
      rw [convertUsd_of_ne hcc]
    · show round2 (convertUsd (currencyCodeOf db req) (exchangeRate db req)
        (breakdownLocal db req).travel) =
          round2 ((breakdownLocal db req).travel / exchangeRate db req)
      rw [convertUsd_of_ne hcc]
    · show round2 (convertUsd (currencyCodeOf db req) (exchangeRate db req)
        (breakdownLocal db req).local_transport) =
          round2 ((breakdownLocal db req).local_transport / exchangeRate db req)
      rw [convertUsd_of_ne hcc]
    · show round2 (convertUsd (currencyCodeOf db req) (exchangeRate db req)
        (breakdownLocal db req).food) =
          round2 ((breakdownLocal db req).food / exchangeRate db req)
      rw [convertUsd_of_ne hcc]

theorem currency_conversion_contract_witness :
    (calculate_treatment_cost dbEmpty reqIndiaIns).currency_code ≠ "USD" ∧
    (calculate_treatment_cost dbEmpty reqIndiaIns).total_cost_usd =
      round2 (totalBeforeInsurance dbEmpty reqIndiaIns /
        (calculate_treatment_cost dbEmpty reqIndiaIns).exchange_rate_to_usd) ∧
    (calculate_treatment_cost dbEmpty reqIndiaIns).breakdown_usd.travel =
      round2 ((calculate_treatment_cost dbEmpty reqIndiaIns).breakdown.travel /
        (calculate_treatment_cost dbEmpty reqIndiaIns).exchange_rate_to_usd) := by
  have h := currency_conversion_contract dbEmpty reqIndiaIns
    (calculate_treatment_cost dbEmpty reqIndiaIns) (by with_unfolding_all rfl)
  have hne : (calculate_treatment_cost dbEmpty reqIndiaIns).currency_code ≠ "USD" := by
    with_unfolding_all decide
  have h2 := h.2 hne
  exact ⟨hne, h2.2.1, h2.2.2.2.2.2.2.2.2.2.2.2.2.1⟩

-- ---------------------------------------------------------------------------
-- C9: monotonicity in the coverage percentages
-- ---------------------------------------------------------------------------

/-- The three custom-coverage percentage fields of the request. -/
inductive CoverageField where
  | inpatient
  | outpatient
  | drug
deriving DecidableEq, Repr

def setCoverage : CoverageField → PyVal → CostCalculationRequest → CostCalculationRequest
  | CoverageField.inpatient, v, r => { r with inpatient_coverage := v }
  | CoverageField.outpatient, v, r => { r with outpatient_coverage := v }
  | CoverageField.drug, v, r => { r with drug_coverage := v }

theorem insurancePays_arith {s t r d c ded k : ℚ} {a1 a2 b1 b2 e1 e2 : ℚ}
    (ha : a1 ≤ a2) (hb : b1 ≤ b2) (he : e1 ≤ e2)
    (hst : 0 ≤ s + t) (hrd : 0 ≤ r + d) (hc : 0 ≤ c) (hk : 0 ≤ k) :
    max 0 ((s + t) * a1 + (r + d) * b1 + c * e1 - ded) * k ≤
    max 0 ((s + t) * a2 + (r + d) * b2 + c * e2 - ded) * k := by
  refine mul_le_mul_of_nonneg_right (max_le_max (le_refl 0) (sub_le_sub_right ?_ _)) hk
  exact add_le_add (add_le_add (mul_le_mul_of_nonneg_left ha hst)
    (mul_le_mul_of_nonneg_left hb hrd)) (mul_le_mul_of_nonneg_left he hc)

theorem calculate_monotone_aux (db : Db) (r1 r2 : CostCalculationRequest)
    (etb : totalBeforeInsurance db r1 = totalBeforeInsurance db r2)
    (ecc : currencyCodeOf db r1 = currencyCodeOf db r2)
    (eer : exchangeRate db r1 = exchangeRate db r2)
    (efb : calcFallback r1 = calcFallback r2)
    (hins : insurancePaysRaw db r1 ≤ insurancePaysRaw db r2) :
    (calculate_treatment_cost db r1).insurance_pays ≤
      (calculate_treatment_cost db r2).insurance_pays ∧
    (calculate_treatment_cost db r2).patient_out_of_pocket ≤
      (calculate_treatment_cost db r1).patient_out_of_pocket := by
  have hoop : patientOutOfPocketRaw db r2 ≤ patientOutOfPocketRaw db r1 := by
    unfold patientOutOfPocketRaw
    rw [← etb]
    exact max_le_max (le_refl 0) (sub_le_sub_left hins _)
  unfold calculate_treatment_cost calcMain
  rw [ecc, eer, efb]
  split_ifs
  · exact ⟨round2_mono hins, round2_mono hoop⟩
  · exact ⟨le_refl _, le_refl _⟩
  · exact ⟨round2_mono hins, round2_mono hoop⟩

/-- C9: holding everything else fixed, raising one custom coverage percentage
never decreases the insurer-paid amount and never increases the patient's
out-of-pocket amount, on every store state and every degradation layer
(without insurance or custom coverage the responses are identical). -/
theorem insurance_coverage_monotone (db : Db) (req : CostCalculationRequest)
    (f : CoverageField) (q1 q2 : ℚ) (h : q1 ≤ q2) :
    (calculate_treatment_cost db (setCoverage f (PyVal.rat q1) req)).insurance_pays ≤
      (calculate_treatment_cost db (setCoverage f (PyVal.rat q2) req)).insurance_pays ∧
    (calculate_treatment_cost db (setCoverage f (PyVal.rat q2) req)).patient_out_of_pocket ≤
      (calculate_treatment_cost db (setCoverage f (PyVal.rat q1) req)).patient_out_of_pocket := by
  cases f with
  | inpatient =>
    have key : ∀ v : PyVal,
        insurancePaysRaw db { req with inpatient_coverage := v } =
        (if req.has_insurance = true then
          max 0 (((breakdownLocal db req).surgery + (breakdownLocal db req).transplant) *
              (coverageTriple db { req with inpatient_coverage := v }).1 +
            ((breakdownLocal db req).radiation + (breakdownLocal db req).diagnostics) *
              (coverageTriple db { req with inpatient_coverage := v }).2.1 +
            (breakdownLocal db req).chemotherapy *
              (coverageTriple db { req with inpatient_coverage := v }).2.2 -
            (normalizeInputs req).deductible) *
            (1 - (normalizeInputs req).copay_percent / 100)
        else 0) := fun v => rfl
    have hins : insurancePaysRaw db { req with inpatient_coverage := PyVal.rat q1 } ≤
        insurancePaysRaw db { req with inpatient_coverage := PyVal.rat q2 } := by
      rw [key (PyVal.rat q1), key (PyVal.rat q2)]
      split_ifs with hhas
      · by_cases hcust : req.custom_coverage = true
        · have keyc : ∀ v : PyVal, coverageTriple db { req with inpatient_coverage := v } =
              (clamp_number (normalize_number (some v) 80 0) 0 100 / 100,
               clamp_number (normalize_number (some req.outpatient_coverage) 50 0) 0 100 / 100,
               clamp_number (normalize_number (some req.drug_coverage) 70 0) 0 100 / 100) := by
            intro v
            unfold coverageTriple
            rw [if_pos (show ({ req with inpatient_coverage := v } :
              CostCalculationRequest).custom_coverage = true from hcust)]
          rw [keyc, keyc]
          refine insurancePays_arith (div_le_div_of_nonneg_right (clamp_number_mono (normalize_number_mono_rat h)) (by norm_num)) (le_refl _) (le_refl _) ?_ ?_ ?_ ?_
          · exact add_nonneg (round2_nonneg (surgeryRawCost_nonneg db req))
              (round2_nonneg (transplantRawCost_nonneg db req))
          · exact add_nonneg (round2_nonneg (radiationRawCost_nonneg db req))
              (round2_nonneg (diagnosticsRawCost_nonneg db req))
          · exact round2_nonneg (chemoRawCost_nonneg db req)
          · exact copay_factor_nonneg req
        · have hceq : coverageTriple db { req with inpatient_coverage := PyVal.rat q1 } =
              coverageTriple db { req with inpatient_coverage := PyVal.rat q2 } := by
            unfold coverageTriple
            rw [if_neg (show ¬ ({ req with inpatient_coverage := PyVal.rat q1 } :
                CostCalculationRequest).custom_coverage = true from hcust),
              if_neg (show ¬ ({ req with inpatient_coverage := PyVal.rat q2 } :
                CostCalculationRequest).custom_coverage = true from hcust)]
            rfl
          rw [hceq]
      · exact le_refl 0
    exact calculate_monotone_aux db _ _ rfl rfl rfl rfl hins
  | outpatient =>
    have key : ∀ v : PyVal,
        insurancePaysRaw db { req with outpatient_coverage := v } =
        (if req.has_insurance = true then
          max 0 (((breakdownLocal db req).surgery + (breakdownLocal db req).transplant) *
              (coverageTriple db { req with outpatient_coverage := v }).1 +
            ((breakdownLocal db req).radiation + (breakdownLocal db req).diagnostics) *
              (coverageTriple db { req with outpatient_coverage := v }).2.1 +
            (breakdownLocal db req).chemotherapy *
              (coverageTriple db { req with outpatient_coverage := v }).2.2 -
            (normalizeInputs req).deductible) *
            (1 - (normalizeInputs req).copay_percent / 100)
        else 0) := fun v => rfl
    have hins : insurancePaysRaw db { req with outpatient_coverage := PyVal.rat q1 } ≤
        insurancePaysRaw db { req with outpatient_coverage := PyVal.rat q2 } := by
      rw [key (PyVal.rat q1), key (PyVal.rat q2)]
      split_ifs with hhas
      · by_cases hcust : req.custom_coverage = true
        · have keyc : ∀ v : PyVal, coverageTriple db { req with outpatient_coverage := v } =
              (clamp_number (normalize_number (some req.inpatient_coverage) 80 0) 0 100 / 100,
               clamp_number (normalize_number (some v) 50 0) 0 100 / 100,
               clamp_number (normalize_number (some req.drug_coverage) 70 0) 0 100 / 100) := by
            intro v
            unfold coverageTriple
            rw [if_pos (show ({ req with outpatient_coverage := v } :
              CostCalculationRequest).custom_coverage = true from hcust)]
          rw [keyc, keyc]
          refine insurancePays_arith (le_refl _) (div_le_div_of_nonneg_right (clamp_number_mono (normalize_number_mono_rat h)) (by norm_num)) (le_refl _) ?_ ?_ ?_ ?_
          · exact add_nonneg (round2_nonneg (surgeryRawCost_nonneg db req))
              (round2_nonneg (transplantRawCost_nonneg db req))
          · exact add_nonneg (round2_nonneg (radiationRawCost_nonneg db req))
              (round2_nonneg (diagnosticsRawCost_nonneg db req))
          · exact round2_nonneg (chemoRawCost_nonneg db req)
          · exact copay_factor_nonneg req
        · have hceq : coverageTriple db { req with outpatient_coverage := PyVal.rat q1 } =
              coverageTriple db { req with outpatient_coverage := PyVal.rat q2 } := by
            unfold coverageTriple
            rw [if_neg (show ¬ ({ req with outpatient_coverage := PyVal.rat q1 } :
                CostCalculationRequest).custom_coverage = true from hcust),
              if_neg (show ¬ ({ req with outpatient_coverage := PyVal.rat q2 } :
                CostCalculationRequest).custom_coverage = true from hcust)]
            rfl
          rw [hceq]
      · exact le_refl 0
    exact calculate_monotone_aux db _ _ rfl rfl rfl rfl hins
  | drug =>
    have key : ∀ v : PyVal,
        insurancePaysRaw db { req with drug_coverage := v } =
        (if req.has_insurance = true then
          max 0 (((breakdownLocal db req).surgery + (breakdownLocal db req).transplant) *
              (coverageTriple db { req with drug_coverage := v }).1 +
            ((breakdownLocal db req).radiation + (breakdownLocal db req).diagnostics) *
              (coverageTriple db { req with drug_coverage := v }).2.1 +
            (breakdownLocal db req).chemotherapy *
              (coverageTriple db { req with drug_coverage := v }).2.2 -
            (normalizeInputs req).deductible) *
            (1 - (normalizeInputs req).copay_percent / 100)
        else 0) := fun v => rfl
    have hins : insurancePaysRaw db { req with drug_coverage := PyVal.rat q1 } ≤
        insurancePaysRaw db { req with drug_coverage := PyVal.rat q2 } := by
      rw [key (PyVal.rat q1), key (PyVal.rat q2)]
      split_ifs with hhas
      · by_cases hcust : req.custom_coverage = true
        · have keyc : ∀ v : PyVal, coverageTriple db { req with drug_coverage := v } =
              (clamp_number (normalize_number (some req.inpatient_coverage) 80 0) 0 100 / 100,
               clamp_number (normalize_number (some req.outpatient_coverage) 50 0) 0 100 / 100,
               clamp_number (normalize_number (some v) 70 0) 0 100 / 100) := by
            intro v
            unfold coverageTriple
            rw [if_pos (show ({ req with drug_coverage := v } :
              CostCalculationRequest).custom_coverage = true from hcust)]
          rw [keyc, keyc]
          refine insurancePays_arith (le_refl _) (le_refl _) (div_le_div_of_nonneg_right (clamp_number_mono (normalize_number_mono_rat h)) (by norm_num)) ?_ ?_ ?_ ?_
          · exact add_nonneg (round2_nonneg (surgeryRawCost_nonneg db req))
              (round2_nonneg (transplantRawCost_nonneg db req))
          · exact add_nonneg (round2_nonneg (radiationRawCost_nonneg db req))
              (round2_nonneg (diagnosticsRawCost_nonneg db req))
          · exact round2_nonneg (chemoRawCost_nonneg db req)
          · exact copay_factor_nonneg req
        · have hceq : coverageTriple db { req with drug_coverage := PyVal.rat q1 } =
              coverageTriple db { req with drug_coverage := PyVal.rat q2 } := by
            unfold coverageTriple
            rw [if_neg (show ¬ ({ req with drug_coverage := PyVal.rat q1 } :
                CostCalculationRequest).custom_coverage = true from hcust),
              if_neg (show ¬ ({ req with drug_coverage := PyVal.rat q2 } :
                CostCalculationRequest).custom_coverage = true from hcust)]
            rfl
          rw [hceq]
      · exact le_refl 0
    exact calculate_monotone_aux db _ _ rfl rfl rfl rfl hins

theorem insurance_coverage_monotone_witness :
    (calculate_treatment_cost dbEmpty
        (setCoverage CoverageField.inpatient (PyVal.rat 50) reqIndiaIns)).insurance_pays ≤
      (calculate_treatment_cost dbEmpty
        (setCoverage CoverageField.inpatient (PyVal.rat 90) reqIndiaIns)).insurance_pays ∧
    (calculate_treatment_cost dbEmpty
        (setCoverage CoverageField.inpatient (PyVal.rat 90) reqIndiaIns)).patient_out_of_pocket ≤
      (calculate_treatment_cost dbEmpty
        (setCoverage CoverageField.inpatient (PyVal.rat 50) reqIndiaIns)).patient_out_of_pocket :=
  insurance_coverage_monotone dbEmpty reqIndiaIns CoverageField.inpatient 50 90 (by norm_num)

-- ---------------------------------------------------------------------------
-- C4: travel/transport/food conversion uses the absent `fx_rate` key
-- ---------------------------------------------------------------------------

/-- A store state mirroring the repository's seeded country documents, which
carry `fx_rate` (seed_data.COUNTRIES_DATA india entry: fx_rate 83.0). -/
def dbIndiaSeeded : Db :=
  { dbEmpty with
    countries := fun _ => DbResult.found
      { currency := some "INR", fx_rate := some (PyVal.rat 83) } }

/-- C4: the travel/transport/food constants are multiplied by
`country.get('fx_rate', 1.0)`, but the compiled-in country dicts carry the
rate under `exchange_rate_to_usd` and have NO `fx_rate` key, so when the
country resolves from the compiled defaults (here india, rate 89.899376) the
multiplier is 1.0 and no currency conversion happens: the travel entry is
1000 (500 USD · 1.0 · economy · 1 trip · 2 travellers) instead of the
converted 89899.38, and transport/food stay at the USD per-day rates; a
store-provided country document carrying `fx_rate` (as the repository's seed
data does, india ↦ 83.0) IS converted: travel 83000. -/
theorem travel_not_converted_for_default_country :
    countryDefaulted dbEmpty reqIndiaIns = true ∧
    fxRateFactor dbEmpty reqIndiaIns = 1 ∧
    (calculate_treatment_cost dbEmpty reqIndiaIns).exchange_rate_to_usd = 89899376/1000000 ∧
    (calculate_treatment_cost dbEmpty reqIndiaIns).breakdown.travel = 1000 ∧
    (calculate_treatment_cost dbEmpty reqIndiaIns).breakdown.travel ≠
      round2 (BASE_FLIGHT_COST_USD * (89899376/1000000) * TRAVEL_TYPE_MULTIPLIERS "economy" *
        1 * (1 + 1)) ∧
    (calculate_treatment_cost dbEmpty reqIndiaIns).breakdown.local_transport = 1800 ∧
    (calculate_treatment_cost dbEmpty reqIndiaIns).breakdown.food = 6000 ∧
    (calculate_treatment_cost dbIndiaSeeded reqIndiaIns).breakdown.travel = 83000 := by
  have e1 : (calculate_treatment_cost dbEmpty reqIndiaIns).breakdown.travel = 1000 := by
    with_unfolding_all rfl
  have e2 : round2 (BASE_FLIGHT_COST_USD * (89899376/1000000) *
      TRAVEL_TYPE_MULTIPLIERS "economy" * 1 * (1 + 1)) = (8989938 : ℚ)/100 := by
    with_unfolding_all rfl
  refine ⟨by with_unfolding_all rfl, by with_unfolding_all rfl, by with_unfolding_all rfl,
    e1, ?_, by with_unfolding_all rfl, by with_unfolding_all rfl, by with_unfolding_all rfl⟩
  rw [e1, e2]
  norm_num
